import Mathlib

/-!
Verification of the jlc-auto-sign repository (src/jlc.py): a shallow
embedding of the per-account sign-in state machine, the reward API client,
the retry/merge controller and the CLI contract, together with theorems
settling the specification claims.

External effects (HTTP responses, selenium element lookups, waits) are
modelled as oracle inputs; every definition mirrors the corresponding
Python function of src/jlc.py.
-/

namespace JLC

/-! ## format_nickname (src/jlc.py lines 28-39) -/

/-- Python whitespace characters recognised by `str.strip()`. -/
def pyIsSpace (c : Char) : Bool :=
  c = ' ' ∨ c = '\t' ∨ c = '\n' ∨ c = '\r' ∨ c = '\x0b' ∨ c = '\x0c'

/-- Python `str.strip()` on a list of characters. -/
def pyStrip (s : List Char) : List Char :=
  ((s.dropWhile pyIsSpace).reverse.dropWhile pyIsSpace).reverse

/-- The placeholder the script uses for an unavailable nickname. -/
def unknownUser : List Char := "未知用户".data

/-- `format_nickname` from src/jlc.py: mask a nickname, keeping only the
first and (for length ≥ 3) last character.  `none` models Python `None`. -/
def format_nickname (nickname : Option (List Char)) : List Char :=
  match nickname with
  | none => unknownUser
  | some s =>
    if s = [] ∨ (pyStrip s).length = 0 then unknownUser
    else
      let t := pyStrip s
      if t.length = 1 then t ++ ['*']
      else if t.length = 2 then t.take 1 ++ ['*']
      else t.take 1 ++ List.replicate (t.length - 2) '*' ++ t.drop (t.length - 1)

/-! ## Calendar gating (src/jlc.py lines 417-426, 442-448) -/

/-- Gregorian leap-year test (as implemented by Python's `datetime`). -/
def isLeapYear (y : Nat) : Bool :=
  (y % 4 = 0 ∧ y % 100 ≠ 0) ∨ y % 400 = 0

/-- Number of days in month `m` of year `y`. -/
def daysInMonth (y m : Nat) : Nat :=
  if m = 2 then (if isLeapYear y then 29 else 28)
  else if m = 4 ∨ m = 6 ∨ m = 9 ∨ m = 11 then 30
  else 31

/-- A calendar date as carried by Python `datetime`. -/
structure Date where
  year : Nat
  month : Nat
  day : Nat
deriving DecidableEq, Repr

/-- The date is a real calendar date. -/
def Date.valid (d : Date) : Prop :=
  1 ≤ d.month ∧ d.month ≤ 12 ∧ 1 ≤ d.day ∧ d.day ≤ daysInMonth d.year d.month

/-- The day after `d` (the single-day step of `timedelta` addition). -/
def nextDay (d : Date) : Date :=
  if d.day < daysInMonth d.year d.month then ⟨d.year, d.month, d.day + 1⟩
  else if d.month < 12 then ⟨d.year, d.month + 1, 1⟩
  else ⟨d.year + 1, 1, 1⟩

/-- The day before `d`. -/
def prevDay (d : Date) : Date :=
  if 1 < d.day then ⟨d.year, d.month, d.day - 1⟩
  else if 1 < d.month then ⟨d.year, d.month - 1, daysInMonth d.year (d.month - 1)⟩
  else ⟨d.year - 1, 12, 31⟩

/-- `d + timedelta(days := n)`. -/
def addDays : Nat → Date → Date
  | 0, d => d
  | n + 1, d => addDays n (nextDay d)

/-- `d - timedelta(days := n)`. -/
def subDays : Nat → Date → Date
  | 0, d => d
  | n + 1, d => subDays n (prevDay d)

/-- `is_last_day_of_month` from src/jlc.py: jump to day 28, add 4 days to
land in the next month, subtract that day-of-month to get the last day of
the current month, and compare. -/
def is_last_day_of_month (today : Date) : Bool :=
  let next_month := addDays 4 ⟨today.year, today.month, 28⟩
  let last_day := subDays next_month.day next_month
  today.day = last_day.day

/-- Days of the week. -/
inductive Weekday
  | monday | tuesday | wednesday | thursday | friday | saturday | sunday
deriving DecidableEq, Repr

/-- Python's `datetime.weekday()` encoding: Monday is 0, Sunday is 6. -/
def Weekday.pythonWeekday : Weekday → Nat
  | .monday => 0
  | .tuesday => 1
  | .wednesday => 2
  | .thursday => 3
  | .friday => 4
  | .saturday => 5
  | .sunday => 6

/-- `is_sunday` from src/jlc.py: `datetime.now().weekday() == 6`. -/
def is_sunday (w : Weekday) : Bool :=
  w.pythonWeekday = 6

/-- Oracle for the selenium interactions of `click_gift_buttons`:
whether the initial body wait succeeds, whether each gift button is
found and clicked without an exception, and what (if anything)
`capture_reward_info` scrapes afterwards. -/
structure GiftEnv where
  bodyWaitOk : Bool
  sevenClickOk : Bool
  sevenReward : Option String
  monthClickOk : Bool
  monthReward : Option String
deriving DecidableEq, Repr

/-- `capture_reward_info` (src/jlc.py lines 428-440): returns the decorated
reward line when the reward element is found, `none` otherwise. -/
def capture_reward_info (giftName : String) (scraped : Option String) : Option String :=
  match scraped with
  | some text => some ("开源平台" ++ giftName ++ "领取结果: " ++ text)
  | none => none

/-- `click_gift_buttons` (src/jlc.py lines 442-496).  Returns the collected
reward-result lines together with the number of gift-button clicks that
were attempted.  When today is neither a Sunday nor the last day of the
month it returns immediately. -/
def click_gift_buttons (w : Weekday) (today : Date) (env : GiftEnv) :
    List String × Nat :=
  if ¬ is_sunday w ∧ ¬ is_last_day_of_month today then ([], 0)
  else if ¬ env.bodyWaitOk then ([], 0)
  else
    let sevenPart : List String × Nat :=
      if is_sunday w then
        if env.sevenClickOk then
          (match capture_reward_info "七日礼包" env.sevenReward with
           | some line => ([line], 1)
           | none => ([], 1))
        else ([], 1)
      else ([], 0)
    let monthPart : List String × Nat :=
      if is_last_day_of_month today then
        if env.monthClickOk then
          (match capture_reward_info "月度礼包" env.monthReward with
           | some line => ([line], 1)
           | none => ([], 1))
        else ([], 1)
      else ([], 0)
    (sevenPart.1 ++ monthPart.1, sevenPart.2 + monthPart.2)

/-! ## JLCClient — the reward API client (src/jlc.py lines 172-380) -/

/-- The mutable per-account fields of `JLCClient` that the sign-in flow
updates (lines 188-192 of src/jlc.py). -/
structure ClientState where
  initial_jindou : Nat
  final_jindou : Nat
  jindou_reward : Int
  sign_status : String
  has_reward : Bool
deriving DecidableEq, Repr

/-- The client's state right after `__init__`. -/
def initClientState : ClientState :=
  { initial_jindou := 0, final_jindou := 0, jindou_reward := 0
    sign_status := "未知", has_reward := false }

/-- The gateway operations, used to record the invocation trace of
`execute_full_process`. -/
inductive Step
  | getUserInfo | getPoints | checkSignStatus | signIn | receiveVoucher | calcDelta
deriving DecidableEq, Repr

/-- Oracle for the gateway HTTP responses consumed by one
`execute_full_process` run.  `points1`/`points2` are the response streams
seen by the two `get_points` calls (`none` = failed request or
non-success envelope).  `signCheck` is `none` when the sign-status
request fails, otherwise the `haveSignIn` flag.  `signInGain` is `none`
when the sign-in request fails, otherwise the optional `gainNum` field
of the success envelope. -/
structure GatewayEnv where
  userInfoOk : Bool
  points1 : List (Option Nat)
  signCheck : Option Bool
  signInGain : Option (Option Int)
  voucherOk : Bool
  points2 : List (Option Nat)

/-- The bounded retry loop shared by `JLCClient.get_points` and
`get_oshwhub_points`: up to `fuel` attempts, first successful response
wins, exhaustion yields 0. -/
def pointsRetryLoop : Nat → List (Option Nat) → Nat
  | 0, _ => 0
  | _ + 1, [] => 0
  | fuel + 1, resp :: rest =>
    match resp with
    | some v => v
    | none => pointsRetryLoop fuel rest

/-- `JLCClient.get_points` (src/jlc.py lines 225-254): query the jindou
balance with `max_retries = 5`; return 0 when every attempt fails. -/
def get_points (resps : List (Option Nat)) : Nat :=
  pointsRetryLoop 5 resps

/-- `get_oshwhub_points` (src/jlc.py lines 135-170): query the platform
points balance with `max_retries = 5`; return 0 when every attempt fails. -/
def get_oshwhub_points (resps : List (Option Nat)) : Nat :=
  pointsRetryLoop 5 resps

/-- Truthiness of the optional `gainNum` field (`if gain_num:`). -/
def pyTruthyGain : Option Int → Bool
  | none => false
  | some n => n ≠ 0

/-- `JLCClient.receive_voucher` (src/jlc.py lines 311-323): a single-shot
claim call; returns whether the claim request reported success. -/
def receive_voucher (claimOk : Bool) : Bool := claimOk

/-- `JLCClient.check_sign_status` (src/jlc.py lines 256-276): tri-state
result (`none` = check failed) plus the status-string update. -/
def check_sign_status (s : ClientState) (resp : Option Bool) :
    Option Bool × ClientState :=
  match resp with
  | some true => (some true, { s with sign_status := "已签到过" })
  | some false => (some false, { s with sign_status := "未签到" })
  | none => (none, { s with sign_status := "检查失败" })

/-- `JLCClient.sign_in` (src/jlc.py lines 278-309).  Returns the success
flag, the updated state, and the number of `receive_voucher` calls made. -/
def sign_in (s : ClientState) (resp : Option (Option Int)) (voucherOk : Bool) :
    Bool × ClientState × Nat :=
  match resp with
  | some gainNum =>
    if pyTruthyGain gainNum then
      (true, { s with sign_status := "签到成功" }, 0)
    else
      let s1 := { s with has_reward := true }
      if receive_voucher voucherOk then
        (true, { s1 with sign_status := "领取奖励成功" }, 1)
      else
        (false, { s1 with sign_status := "领取奖励失败" }, 1)
  | none => (false, { s with sign_status := "签到失败" }, 0)

/-- `JLCClient.calculate_jindou_difference` (src/jlc.py lines 325-338):
store `final - initial` (possibly negative) in `jindou_reward`. -/
def calculate_jindou_difference (s : ClientState) : ClientState :=
  { s with jindou_reward := (s.final_jindou : Int) - (s.initial_jindou : Int) }

/-- `JLCClient.execute_full_process` (src/jlc.py lines 340-380): the full
gateway sign-in sequence.  Returns the overall success flag, the final
client state, and the ordered trace of gateway operations executed. -/
def execute_full_process (env : GatewayEnv) : Bool × ClientState × List Step :=
  if ¬ env.userInfoOk then
    (false, initClientState, [Step.getUserInfo])
  else
    let s1 : ClientState :=
      { initClientState with initial_jindou := get_points env.points1 }
    let tr2 : List Step := [Step.getUserInfo, Step.getPoints, Step.checkSignStatus]
    match check_sign_status s1 env.signCheck with
    | (none, s2) => (false, s2, tr2)
    | (some true, s2) =>
      let s3 := { s2 with final_jindou := get_points env.points2 }
      (true, calculate_jindou_difference s3, tr2 ++ [Step.getPoints, Step.calcDelta])
    | (some false, s2) =>
      let si := sign_in s2 env.signInGain env.voucherOk
      let tr3 := tr2 ++ [Step.signIn] ++ List.replicate si.2.2 Step.receiveVoucher
      if ¬ si.1 then (false, si.2.1, tr3)
      else
        let s3 := { si.2.1 with final_jindou := get_points env.points2 }
        (true, calculate_jindou_difference s3, tr3 ++ [Step.getPoints, Step.calcDelta])

/-! ## Attempt results and the session orchestrator
(src/jlc.py lines 645-965) -/

/-- The per-attempt result dictionary built by `sign_in_account`
(src/jlc.py lines 676-696).  The merged per-account record of
`process_single_account` has exactly the same keys, so the same structure
models both. -/
structure AttemptResult where
  account_index : Nat
  nickname : String
  oshwhub_status : String
  oshwhub_success : Bool
  initial_points : Nat
  final_points : Nat
  points_reward : Int
  reward_results : List String
  jindou_status : String
  jindou_success : Bool
  initial_jindou : Nat
  final_jindou : Nat
  jindou_reward : Int
  has_jindou_reward : Bool
  token_extracted : Bool
  secretkey_extracted : Bool
  retry_count : Nat
  is_final_retry : Bool
  password_error : Bool
deriving DecidableEq, Repr

/-- The freshly initialised result dictionary of one attempt
(src/jlc.py lines 676-696). -/
def initResult (idx rc : Nat) (isFinal : Bool) : AttemptResult :=
  { account_index := idx, nickname := "未知"
    oshwhub_status := "未知", oshwhub_success := false
    initial_points := 0, final_points := 0, points_reward := 0
    reward_results := []
    jindou_status := "未知", jindou_success := false
    initial_jindou := 0, final_jindou := 0, jindou_reward := 0
    has_jindou_reward := false
    token_extracted := false, secretkey_extracted := false
    retry_count := rc, is_final_retry := isFinal, password_error := false }

/-- Outcome of the platform sign-in section (src/jlc.py lines 855-904):
the "已签到" marker was already present, the click loop ended with the
marker present, the click loop exhausted its attempts, or the section
raised and was caught in place. -/
inductive SignOutcome
  | alreadySigned | clickSigned | clickFailed | signExc
deriving DecidableEq, Repr

/-- Oracle for one orchestration attempt (`sign_in_account`): the outcome
of every selenium/HTTP interaction the attempt performs, in program
order.  `bodyWait1Ok`/`bodyWait2Ok`/`mJlcNavOk` model the uncaught
`WebDriverWait` calls at lines 846, 906 and 924-926 of src/jlc.py, whose
failure raises into the outer `except` handler. -/
structure OrchEnv where
  ensureLoginOk : Bool
  loginInputFound : Bool
  loginBtnFound : Bool
  pwErrorAfterLogin : Bool
  sliderAppears : Bool
  pwErrorAfterSlider : Bool
  jumped : Bool
  nicknameResp : Option String
  oshPoints1 : List (Option Nat)
  bodyWait1Ok : Bool
  signOutcome : SignOutcome
  wd : Weekday
  today : Date
  gifts : GiftEnv
  bodyWait2Ok : Bool
  oshPoints2 : List (Option Nat)
  mJlcNavOk : Bool
  tokenFound : Bool
  secretkeyFound : Bool
  gateway : GatewayEnv

/-- The platform sign-in section of `sign_in_account`
(src/jlc.py lines 855-904): update the result according to the section's
outcome; the two success outcomes also run `click_gift_buttons`. -/
def platformSignResult (r2 : AttemptResult) (so : SignOutcome) (w : Weekday)
    (d : Date) (ge : GiftEnv) : AttemptResult :=
  match so with
  | .alreadySigned =>
    { r2 with oshwhub_status := "已签到过", oshwhub_success := true
              reward_results := (click_gift_buttons w d ge).1 }
  | .clickSigned =>
    { r2 with oshwhub_status := "签到成功", oshwhub_success := true
              reward_results := (click_gift_buttons w d ge).1 }
  | .clickFailed => { r2 with oshwhub_status := "签到失败" }
  | .signExc => { r2 with oshwhub_status := "签到异常" }

/-- `sign_in_account` (src/jlc.py lines 645-965): one full orchestration
attempt for one account.  Early returns and the outer exception handler
(which stamps `執行異常`-style statuses) are modelled exactly; the
browser teardown of the `finally` block is modelled separately below. -/
def sign_in_account (idx rc : Nat) (isFinal : Bool) (env : OrchEnv) : AttemptResult :=
  let r0 := initResult idx rc isFinal
  if ¬ env.ensureLoginOk then { r0 with oshwhub_status := "无法进入登录页" }
  else if ¬ env.loginInputFound then { r0 with oshwhub_status := "登录失败" }
  else if ¬ env.loginBtnFound then { r0 with oshwhub_status := "登录失败" }
  else if env.pwErrorAfterLogin then
    { r0 with password_error := true, oshwhub_status := "密码错误" }
  else if ¬ env.sliderAppears then { r0 with oshwhub_status := "执行异常" }
  else if env.pwErrorAfterSlider then
    { r0 with password_error := true, oshwhub_status := "密码错误" }
  else if ¬ env.jumped then { r0 with oshwhub_status := "跳转失败" }
  else
    let r1 := { r0 with nickname := env.nicknameResp.getD "未知" }
    let r2 := { r1 with initial_points := get_oshwhub_points env.oshPoints1 }
    if ¬ env.bodyWait1Ok then { r2 with oshwhub_status := "执行异常" }
    else
      let r3 := platformSignResult r2 env.signOutcome env.wd env.today env.gifts
      if ¬ env.bodyWait2Ok then { r3 with oshwhub_status := "执行异常" }
      else
        let fp := get_oshwhub_points env.oshPoints2
        let r4 := { r3 with final_points := fp
                            points_reward := (fp : Int) - (r3.initial_points : Int) }
        if ¬ env.mJlcNavOk then { r4 with oshwhub_status := "执行异常" }
        else
          let r5 := { r4 with token_extracted := env.tokenFound
                              secretkey_extracted := env.secretkeyFound }
          if env.tokenFound ∧ env.secretkeyFound then
            let fp_result := execute_full_process env.gateway
            let cs := fp_result.2.1
            { r5 with jindou_success := fp_result.1
                      jindou_status := cs.sign_status
                      initial_jindou := cs.initial_jindou
                      final_jindou := cs.final_jindou
                      jindou_reward := cs.jindou_reward
                      has_jindou_reward := cs.has_reward }
          else
            { r5 with jindou_status := "Token提取失败" }

/-! ## Retry controller and result merge
(src/jlc.py lines 967-1149) -/

/-- `should_retry` (src/jlc.py lines 967-970). -/
def should_retry (ms : Bool × Bool) (password_error : Bool) : Bool :=
  (¬ ms.1 ∨ ¬ ms.2) ∧ ¬ password_error

/-- The platform-group merge step (src/jlc.py lines 1009-1016): copy the
oshwhub status/points/reward/gift fields from `r` exactly when `r`
succeeded and the merged record has no oshwhub success yet. -/
def mergeOshGroup (msO : Bool) (mr r : AttemptResult) : Bool × AttemptResult :=
  if r.oshwhub_success ∧ ¬ msO then
    (true, { mr with oshwhub_status := r.oshwhub_status
                     initial_points := r.initial_points
                     final_points := r.final_points
                     points_reward := r.points_reward
                     reward_results := r.reward_results })
  else (msO, mr)

/-- The jindou-group merge step (src/jlc.py lines 1018-1025). -/
def mergeJindouGroup (msJ : Bool) (mr r : AttemptResult) : Bool × AttemptResult :=
  if r.jindou_success ∧ ¬ msJ then
    (true, { mr with jindou_status := r.jindou_status
                     initial_jindou := r.initial_jindou
                     final_jindou := r.final_jindou
                     jindou_reward := r.jindou_reward
                     has_jindou_reward := r.has_jindou_reward })
  else (msJ, mr)

/-- The nickname/token/secretkey updates shared by both merges
(src/jlc.py lines 1027-1035 and 1129-1137). -/
def mergeIdentityFields (mr r : AttemptResult) : AttemptResult :=
  let mr3 :=
    if mr.nickname = "未知" ∧ r.nickname ≠ "未知" then
      { mr with nickname := r.nickname }
    else mr
  let mr4 :=
    if ¬ mr3.token_extracted ∧ r.token_extracted then
      { mr3 with token_extracted := r.token_extracted }
    else mr3
  if ¬ mr4.secretkey_extracted ∧ r.secretkey_extracted then
    { mr4 with secretkey_extracted := r.secretkey_extracted }
  else mr4

/-- The per-attempt merge body of `process_single_account`
(src/jlc.py lines 1009-1038): fold one `AttemptResult` into the merged
record and the `merged_success` flag pair, finishing with the
unconditional `retry_count` update.  The password-error branch
(lines 1003-1007) is handled by the loop, not here. -/
def merge_attempt (ms : Bool × Bool) (mr r : AttemptResult) :
    (Bool × Bool) × AttemptResult :=
  let s1 := mergeOshGroup ms.1 mr r
  let s2 := mergeJindouGroup ms.2 s1.2 r
  ((s1.1, s2.1), { mergeIdentityFields s2.2 r with retry_count := r.retry_count })

/-- The retry loop of `process_single_account` (src/jlc.py lines
999-1045): `f n` is the attempt result the n-th call of
`sign_in_account` would produce.  Returns the merged-success flags, the
merged record (before the final success-flag assignment) and the number
of attempts actually executed.  `fuel` is `4 - attempt`, mirroring
`for attempt in range(max_retries + 1)`. -/
def processGo (f : Nat → AttemptResult) :
    Nat → Nat → (Bool × Bool) → AttemptResult →
    (Bool × Bool) × AttemptResult × Nat
  | _, 0, ms, mr => (ms, mr, 0)
  | attempt, fuel + 1, ms, mr =>
    let r := f attempt
    if r.password_error then
      (ms, { mr with password_error := true, oshwhub_status := "密码错误"
                     nickname := "未知" }, attempt + 1)
    else
      let step := merge_attempt ms mr r
      if ¬ should_retry step.1 step.2.password_error ∨ 3 ≤ attempt then
        (step.1, step.2, attempt + 1)
      else
        processGo f (attempt + 1) fuel step.1 step.2

/-- `process_single_account` (src/jlc.py lines 972-1051): run up to
`max_retries + 1 = 4` attempts, merging monotonically, and finally copy
the merged-success flags into the record.  Also returns the number of
attempts executed. -/
def process_single_account (idx : Nat) (f : Nat → AttemptResult) :
    AttemptResult × Nat :=
  let out := processGo f 0 4 (false, false) (initResult idx 0 false)
  ({ out.2.1 with oshwhub_success := out.1.1, jindou_success := out.1.2 }, out.2.2)

/-- The selection predicate of `execute_final_retry_for_failed_accounts`
(src/jlc.py lines 1060-1069): an account joins the final-retry pass iff
it is still missing a success and is not a password-error account. -/
def needsFinalRetry (r : AttemptResult) : Bool :=
  (¬ r.oshwhub_success ∨ ¬ r.jindou_success) ∧ ¬ r.password_error

/-- The platform-group update of the final-retry pass
(src/jlc.py lines 1110-1117): unlike the loop merge, it reads and sets
the success flag directly on the merged record. -/
def finalMergeOshGroup (orig finalR : AttemptResult) : AttemptResult :=
  if finalR.oshwhub_success ∧ ¬ orig.oshwhub_success then
    { orig with oshwhub_success := true
                oshwhub_status := finalR.oshwhub_status
                initial_points := finalR.initial_points
                final_points := finalR.final_points
                points_reward := finalR.points_reward
                reward_results := finalR.reward_results }
  else orig

/-- The jindou-group update of the final-retry pass
(src/jlc.py lines 1119-1127). -/
def finalMergeJindouGroup (orig finalR : AttemptResult) : AttemptResult :=
  if finalR.jindou_success ∧ ¬ orig.jindou_success then
    { orig with jindou_success := true
                jindou_status := finalR.jindou_status
                initial_jindou := finalR.initial_jindou
                final_jindou := finalR.final_jindou
                jindou_reward := finalR.jindou_reward
                has_jindou_reward := finalR.has_jindou_reward }
  else orig

/-- The per-account merge of the final-retry pass
(src/jlc.py lines 1096-1140): fold the final attempt's result into the
account's merged record. -/
def final_retry_merge (orig finalR : AttemptResult) : AttemptResult :=
  if finalR.password_error then
    { orig with password_error := true, oshwhub_status := "密码错误"
                nickname := "未知", is_final_retry := true
                retry_count := orig.retry_count + 1 }
  else
    let o2 := finalMergeJindouGroup (finalMergeOshGroup orig finalR) finalR
    { mergeIdentityFields o2 finalR with
        is_final_retry := true, retry_count := orig.retry_count + 1 }

/-- `execute_final_retry_for_failed_accounts` (src/jlc.py lines
1053-1149): every still-failing, non-password-error account gets one
more attempt (`finalFor i` is the result the extra `sign_in_account`
call for list position `i` would produce); all other records are left
untouched. -/
def execute_final_retry (results : List AttemptResult)
    (finalFor : Nat → AttemptResult) : List AttemptResult :=
  (results.enum).map
    (fun p => if needsFinalRetry p.2 then final_retry_merge p.2 (finalFor p.1) else p.2)

/-! ## CLI contract (src/jlc.py lines 1264-1446) -/

/-- Python `str.strip()` on a `String`. -/
def pyStripStr (s : String) : String :=
  ⟨pyStrip s.data⟩

/-- Python `"x,y".split(',')` on a character list: split at every comma,
keeping empty pieces. -/
def splitOnComma : List Char → List (List Char)
  | [] => [[]]
  | c :: rest =>
    let r := splitOnComma rest
    if c = ',' then [] :: r
    else
      match r with
      | [] => [[c]]
      | h :: t => (c :: h) :: t

/-- The credential-list parsing of `main` (src/jlc.py lines 1274-1275):
`[u.strip() for u in arg.split(',') if u.strip()]`. -/
def parse_list (s : String) : List String :=
  ((splitOnComma s.data).map (fun u => (⟨pyStrip u⟩ : String))).filter
    (fun u => u ≠ "")

/-- Python `str.lower()` (ASCII range, which is all the flag comparison
needs). -/
def pyLower (s : String) : String :=
  ⟨s.data.map Char.toLower⟩

/-- The failure-exit flag parsing of `main` (src/jlc.py lines 1278-1280):
enabled iff a third argument is present and lowercases to `"true"`. -/
def enableFailureExit (argv : List String) : Bool :=
  match argv.drop 3 with
  | a3 :: _ => pyLower a3 = "true"
  | [] => false

/-- The generic failed-account indices collected by `main`
(src/jlc.py lines 1339-1341): missing a success and not password-error. -/
def failedAccounts (results : List AttemptResult) : List Nat :=
  (results.filter
    (fun r => (¬ r.oshwhub_success ∨ ¬ r.jindou_success) ∧ ¬ r.password_error)).map
    (fun r => r.account_index)

/-- The password-error account indices collected by `main`
(src/jlc.py lines 1331-1334). -/
def passwordErrorAccounts (results : List AttemptResult) : List Nat :=
  (results.filter (fun r => r.password_error)).map (fun r => r.account_index)

/-- The process exit code of `main` (src/jlc.py lines 1264-1288 and
1433-1446) as a function of the argument vector (including the program
name, as in `sys.argv`) and the final per-account records. -/
def mainExitCode (argv : List String) (results : List AttemptResult) : Nat :=
  match argv with
  | _ :: a1 :: a2 :: _ =>
    let usernames := parse_list a1
    let passwords := parse_list a2
    if usernames.length ≠ passwords.length then 1
    else
      let all_failed := failedAccounts results ++ passwordErrorAccounts results
      if enableFailureExit argv ∧ all_failed ≠ [] then 1 else 0
  | _ => 1

/-! ## Browser lifecycle of one attempt
(src/jlc.py lines 529-609 and 655-965) -/

/-- Outcome of one navigation round inside `ensure_login_page`: the
login page was detected, a different page was reached, or the
navigation/wait raised. -/
inductive NavOutcome
  | loginPage | otherPage | navError
deriving DecidableEq, Repr

/-- The browser bookkeeping of `ensure_login_page`: whether it returned
`True`, which browser instances it created, which it quit, and the value
of its local `driver` variable on exit. -/
structure EnsureResult where
  success : Bool
  created : List Nat
  quitted : List Nat
  currentDriver : Nat
deriving DecidableEq, Repr

/-- The `while restarts < max_restarts` loop of `ensure_login_page`
(src/jlc.py lines 529-609), instrumented with browser-instance ids.
`outcome i` is what the i-th navigation round observes; `otherPage` and
`navError` trigger the same restart bookkeeping (the `else` and `except`
branches of the source).  On a restart the function quits its local
`driver` and rebinds that local variable to a freshly created instance —
the caller's reference is not updated.  `fuel` is
`max_restarts - restarts`. -/
def ensureGo (outcome : Nat → NavOutcome) :
    Nat → Nat → Nat → Nat → List Nat → List Nat → EnsureResult
  | 0, _, driverVar, _, created, quitted =>
    ⟨false, created, quitted, driverVar⟩
  | fuel + 1, i, driverVar, nextId, created, quitted =>
    match outcome i with
    | .loginPage => ⟨true, created, quitted, driverVar⟩
    | _ =>
      if fuel = 0 then ⟨false, created, quitted, driverVar⟩
      else
        ensureGo outcome fuel (i + 1) nextId (nextId + 1)
          (created ++ [nextId]) (quitted ++ [driverVar])

/-- `ensure_login_page` entry point: start with the caller's driver id,
`restarts = 0` (`max_restarts = 5`), and no instances created or quit yet. -/
def ensure_login_page (outcome : Nat → NavOutcome) (callerDriver : Nat) : EnsureResult :=
  ensureGo outcome 5 0 callerDriver (callerDriver + 1) [] []

/-- The browser lifecycle of one whole `sign_in_account` attempt
(src/jlc.py lines 655-670 create the attempt's driver; line 962's
`finally: driver.quit()` quits the attempt's local `driver` variable —
which still refers to the originally created instance even when
`ensure_login_page` replaced the browser internally).  Returns the ids
of all instances created during the attempt and of all instances quit
before the attempt returns. -/
def attemptBrowserLifecycle (outcome : Nat → NavOutcome) : List Nat × List Nat :=
  let d0 := 0
  let e := ensure_login_page outcome d0
  (d0 :: e.created, e.quitted ++ [d0])

/-- The browser instances created during an attempt that are never quit. -/
def leakedDrivers (outcome : Nat → NavOutcome) : List Nat :=
  let lc := attemptBrowserLifecycle outcome
  lc.1.filter (fun i => ¬ i ∈ lc.2)

/-! ## Helper lemmas -/

theorem pyStrip_nil : pyStrip [] = [] := rfl

theorem pyStrip_eq_nil_of_all_space {s : List Char}
    (hs : ∀ c ∈ s, pyIsSpace c = true) : pyStrip s = [] := by
  unfold pyStrip
  rw [List.dropWhile_eq_nil_iff.mpr hs]
  rfl

theorem format_nickname_of_strip_ne_nil {s : List Char}
    (h : pyStrip s ≠ []) :
    format_nickname (some s) =
      (if (pyStrip s).length = 1 then pyStrip s ++ ['*']
       else if (pyStrip s).length = 2 then (pyStrip s).take 1 ++ ['*']
       else (pyStrip s).take 1 ++ List.replicate ((pyStrip s).length - 2) '*' ++
         (pyStrip s).drop ((pyStrip s).length - 1)) := by
  have hsne : s ≠ [] := by
    intro hnil
    exact h (hnil ▸ pyStrip_nil)
  have hlen : (pyStrip s).length ≠ 0 := by
    simpa [List.length_eq_zero] using h
  simp only [format_nickname, hsne, hlen, or_self, if_false, false_or, if_neg hlen]

/-! ## C10 — nickname masking -/

/-- C10: `format_nickname` returns `未知用户` for null, empty or
whitespace-only input; a one-character trimmed name becomes that
character plus `*`; a two-character trimmed name becomes the first
character plus `*` (the last character is dropped); a trimmed name
`c :: mid ++ [d]` with `mid ≠ []` (length ≥ 3) becomes the first
character, `length − 2` asterisks, and the last character, so the output
length equals the trimmed length and no interior character is revealed. -/
theorem nickname_masking_cases :
    format_nickname none = unknownUser ∧
    format_nickname (some []) = unknownUser ∧
    (∀ s : List Char, (∀ c ∈ s, pyIsSpace c = true) →
      format_nickname (some s) = unknownUser) ∧
    (∀ s : List Char, ∀ c : Char, pyStrip s = [c] →
      format_nickname (some s) = [c, '*']) ∧
    (∀ s : List Char, ∀ c d : Char, pyStrip s = [c, d] →
      format_nickname (some s) = [c, '*']) ∧
    (∀ s : List Char, ∀ c : Char, ∀ mid : List Char, ∀ d : Char,
      mid ≠ [] → pyStrip s = c :: mid ++ [d] →
      format_nickname (some s) = c :: (List.replicate mid.length '*' ++ [d]) ∧
      (format_nickname (some s)).length = (pyStrip s).length) := by
  refine ⟨rfl, rfl, ?_, ?_, ?_, ?_⟩
  · intro s hs
    have h := pyStrip_eq_nil_of_all_space hs
    cases s with
    | nil => rfl
    | cons a t => simp [format_nickname, h]
  · intro s c h
    rw [format_nickname_of_strip_ne_nil (by simp [h]), h]
    rfl
  · intro s c d h
    rw [format_nickname_of_strip_ne_nil (by simp [h]), h]
    rfl
  · intro s c mid d hmid h
    have hlen : (pyStrip s).length = mid.length + 2 := by
      simp [h]
    have hm1 : 1 ≤ mid.length := List.length_pos.mpr hmid
    rw [format_nickname_of_strip_ne_nil (by simp [h]), h]
    have hlc : (c :: mid ++ [d]).length = mid.length + 2 := by simp
    have h1 : ¬ (c :: mid ++ [d]).length = 1 := by rw [hlc]; omega
    have h2 : ¬ (c :: mid ++ [d]).length = 2 := by rw [hlc]; omega
    rw [if_neg h1, if_neg h2]
    have hdrop : (c :: mid ++ [d]).drop ((c :: mid ++ [d]).length - 1) = [d] := by
      have hl : (c :: mid ++ [d]).length - 1 = (c :: mid).length := by simp
      rw [hl]
      exact List.drop_left (c :: mid) [d]
    have htake : (c :: mid ++ [d]).take 1 = [c] := rfl
    have hrep : (c :: mid ++ [d]).length - 2 = mid.length := by simp
    rw [hdrop, htake, hrep]
    constructor
    · simp
    · simp [hlen]

/-- Witness for C10 at concrete inputs. -/
theorem nickname_masking_cases_witness :
    format_nickname (some " ".data) = unknownUser ∧
    format_nickname (some "ab".data) = ['a', '*'] ∧
    format_nickname (some "abcd".data) = 'a' :: (List.replicate 2 '*' ++ ['d']) :=
  ⟨nickname_masking_cases.2.2.1 " ".data (by decide),
   nickname_masking_cases.2.2.2.2.1 "ab".data 'a' 'b' (by decide),
   (nickname_masking_cases.2.2.2.2.2 "abcd".data 'a' ['b', 'c'] 'd'
     (by decide) (by decide)).1⟩

theorem addDays_four (d : Date) :
    addDays 4 d = nextDay (nextDay (nextDay (nextDay d))) := rfl

theorem subDays_one (d : Date) : subDays 1 d = prevDay d := rfl

theorem subDays_two (d : Date) : subDays 2 d = prevDay (prevDay d) := rfl

theorem subDays_three (d : Date) :
    subDays 3 d = prevDay (prevDay (prevDay d)) := rfl

theorem subDays_four (d : Date) :
    subDays 4 d = prevDay (prevDay (prevDay (prevDay d))) := rfl

theorem is_last_day_iff (d : Date) (hv : d.valid) :
    (is_last_day_of_month d = true ↔ d.day = daysInMonth d.year d.month) := by
  obtain ⟨y, m, day⟩ := d
  obtain ⟨hm1, hm2, hd1, hd2⟩ := hv
  simp only at hm1 hm2 hd1 hd2
  interval_cases m <;> cases hl : isLeapYear y <;>
    simp [is_last_day_of_month, addDays_four, subDays_one, subDays_two,
      subDays_three, subDays_four, nextDay, prevDay, daysInMonth, hl]

/-! ## C9 — calendar gating of bonus claims -/

/-- C9: `is_last_day_of_month` holds exactly on the last day of the
month (for every month length, February in leap and non-leap years
included), `is_sunday` holds exactly on Sunday, and `click_gift_buttons`
returns an empty result list and attempts no click when today is neither
a Sunday nor the last day of the month. -/
theorem calendar_gating :
    (∀ d : Date, d.valid →
      (is_last_day_of_month d = true ↔ d.day = daysInMonth d.year d.month)) ∧
    (∀ w : Weekday, is_sunday w = true ↔ w = Weekday.sunday) ∧
    (∀ w : Weekday, ∀ d : Date, ∀ env : GiftEnv,
      is_sunday w = false → is_last_day_of_month d = false →
      click_gift_buttons w d env = ([], 0)) := by
  refine ⟨is_last_day_iff, fun w => by cases w <;> decide, ?_⟩
  intro w d env hw hd
  simp [click_gift_buttons, hw, hd]

/-- Witness for C9 at concrete inputs: 29 Feb 2024 is the last day of
its month, 28 Feb 2023 likewise, 30 Jan 2024 is not, and on a
Monday that is not a month end no gift click happens. -/
theorem calendar_gating_witness :
    (is_last_day_of_month ⟨2024, 2, 29⟩ = true ↔ 29 = daysInMonth 2024 2) ∧
    (is_last_day_of_month ⟨2023, 2, 28⟩ = true ↔ 28 = daysInMonth 2023 2) ∧
    (is_last_day_of_month ⟨2024, 1, 30⟩ = true ↔ 30 = daysInMonth 2024 1) ∧
    click_gift_buttons Weekday.monday ⟨2024, 1, 30⟩
      ⟨true, true, some "x", true, some "y"⟩ = ([], 0) :=
  ⟨calendar_gating.1 ⟨2024, 2, 29⟩ (by constructor <;> simp [daysInMonth, isLeapYear]),
   calendar_gating.1 ⟨2023, 2, 28⟩ (by constructor <;> simp [daysInMonth, isLeapYear]),
   calendar_gating.1 ⟨2024, 1, 30⟩ (by constructor <;> simp [daysInMonth, isLeapYear]),
   calendar_gating.2.2 Weekday.monday ⟨2024, 1, 30⟩ _ (by decide) (by decide)⟩

theorem pointsRetryLoop_all_none :
    ∀ (fuel : Nat) (resps : List (Option Nat)),
      (∀ r ∈ resps, r = none) → pointsRetryLoop fuel resps = 0 := by
  intro fuel
  induction fuel with
  | zero => intro resps _; rfl
  | succ n ih =>
    intro resps hr
    cases resps with
    | nil => rfl
    | cons r rest =>
      have h0 : r = none := hr r (by simp)
      subst h0
      simpa [pointsRetryLoop] using ih rest (fun x hx => hr x (by simp [hx]))

theorem pointsRetryLoop_append :
    ∀ (fuel : Nat) (resps rest : List (Option Nat)), fuel ≤ resps.length →
      pointsRetryLoop fuel (resps ++ rest) = pointsRetryLoop fuel resps := by
  intro fuel
  induction fuel with
  | zero => intro resps rest _; rfl
  | succ n ih =>
    intro resps rest hlen
    cases resps with
    | nil => simp at hlen
    | cons r tail =>
      cases r with
      | some v => rfl
      | none =>
        simpa [pointsRetryLoop] using ih tail rest (by simpa using hlen)

/-! ## C6 — get_points returns 0 on exhausted retries -/

/-- C6: `get_points` yields a non-negative integer; its retry loop is
bounded by 5 attempts (responses beyond the fifth are never consulted);
when every consulted response fails it returns 0 — indistinguishable
from a genuine zero balance — and `execute_full_process` then proceeds,
computing the delta against that 0 instead of aborting. -/
theorem get_points_zero_fallback :
    (∀ resps : List (Option Nat), (0 : Int) ≤ (get_points resps : Int)) ∧
    (∀ resps : List (Option Nat), (∀ r ∈ resps, r = none) →
      get_points resps = 0) ∧
    (∀ resps rest : List (Option Nat), resps.length = 5 →
      get_points (resps ++ rest) = get_points resps) ∧
    (get_points (List.replicate 5 none) = get_points [some 0]) ∧
    (∀ env : GatewayEnv, env.userInfoOk = true →
      (∀ r ∈ env.points1, r = none) → env.signCheck = some true →
      (execute_full_process env).1 = true ∧
      (execute_full_process env).2.1.initial_jindou = 0 ∧
      (execute_full_process env).2.1.jindou_reward = (get_points env.points2 : Int)) := by
  refine ⟨fun resps => Int.natCast_nonneg _,
    fun resps h => pointsRetryLoop_all_none 5 resps h,
    fun resps rest hlen => pointsRetryLoop_append 5 resps rest (by omega),
    by decide, ?_⟩
  intro env hui hp1 hsc
  have h0 : get_points env.points1 = 0 := pointsRetryLoop_all_none 5 env.points1 hp1
  simp [execute_full_process, hui, hsc, check_sign_status,
    calculate_jindou_difference, h0]

/-- Witness for C6: five failed balance responses yield 0, and the full
process then succeeds with the delta computed against the phantom 0. -/
theorem get_points_zero_fallback_witness :
    get_points [none, none, none, none, none] = 0 ∧
    get_points ([none, some 3, none, none, none] ++ [some 9]) =
      get_points [none, some 3, none, none, none] ∧
    (execute_full_process
      ⟨true, [none, none, none, none, none], some true, none, false, [some 7]⟩).1
      = true ∧
    (execute_full_process
      ⟨true, [none, none, none, none, none], some true, none, false, [some 7]⟩).2.1.jindou_reward
      = (7 : Int) := by
  obtain ⟨-, h2, h3, -, h5⟩ := get_points_zero_fallback
  have hfull := h5 ⟨true, [none, none, none, none, none], some true, none, false,
    [some 7]⟩ rfl (by simp) rfl
  refine ⟨h2 _ (by simp), h3 _ _ (by simp), hfull.1, ?_⟩
  have := hfull.2.2
  simpa [get_points, pointsRetryLoop] using this

/-! ## C4 — execute_full_process ordering and early aborts -/

/-- C4: `execute_full_process` runs getUserInfo, getPoints (initial),
checkSignStatus, then skips or runs signIn, then getPoints (final) and
the delta computation, in exactly this order; it aborts with `false`
immediately when getUserInfo fails, when checkSignStatus returns null,
or when signIn fails; when checkSignStatus reports already-signed-in,
signIn is never invoked and the status reads `已签到过`; the delta step
runs iff the sequence reached its final step. -/
theorem execute_full_process_order :
    (∀ env : GatewayEnv, env.userInfoOk = false →
      execute_full_process env = (false, initClientState, [Step.getUserInfo])) ∧
    (∀ env : GatewayEnv, env.userInfoOk = true → env.signCheck = none →
      (execute_full_process env).1 = false ∧
      (execute_full_process env).2.2 =
        [Step.getUserInfo, Step.getPoints, Step.checkSignStatus]) ∧
    (∀ env : GatewayEnv, env.userInfoOk = true → env.signCheck = some true →
      (execute_full_process env).1 = true ∧
      Step.signIn ∉ (execute_full_process env).2.2 ∧
      (execute_full_process env).2.1.sign_status = "已签到过" ∧
      (execute_full_process env).2.2 =
        [Step.getUserInfo, Step.getPoints, Step.checkSignStatus,
          Step.getPoints, Step.calcDelta]) ∧
    (∀ env : GatewayEnv, env.userInfoOk = true → env.signCheck = some false →
      (env.signInGain = none ∨
        (∃ g, env.signInGain = some g ∧ pyTruthyGain g = false ∧
          env.voucherOk = false)) →
      (execute_full_process env).1 = false ∧
      Step.calcDelta ∉ (execute_full_process env).2.2 ∧
      (execute_full_process env).2.2 =
        [Step.getUserInfo, Step.getPoints, Step.checkSignStatus, Step.signIn] ++
          List.replicate (sign_in initClientState env.signInGain env.voucherOk).2.2
            Step.receiveVoucher) ∧
    (∀ env : GatewayEnv, env.userInfoOk = true → env.signCheck = some false →
      (∃ g, env.signInGain = some g ∧
        (pyTruthyGain g = true ∨ env.voucherOk = true)) →
      (execute_full_process env).1 = true ∧
      (execute_full_process env).2.2 =
        [Step.getUserInfo, Step.getPoints, Step.checkSignStatus, Step.signIn] ++
          List.replicate (sign_in initClientState env.signInGain env.voucherOk).2.2
            Step.receiveVoucher ++ [Step.getPoints, Step.calcDelta]) ∧
    (∀ env : GatewayEnv,
      (Step.calcDelta ∈ (execute_full_process env).2.2 ↔
        (execute_full_process env).1 = true)) := by
  refine ⟨?_, ?_, ?_, ?_, ?_, ?_⟩
  · intro env h
    simp [execute_full_process, h]
  · intro env hui hsc
    simp [execute_full_process, hui, hsc, check_sign_status]
  · intro env hui hsc
    simp [execute_full_process, hui, hsc, check_sign_status,
      calculate_jindou_difference]
  · rintro env hui hsc (hg | ⟨g, hg, ht, hv⟩) <;>
      simp [execute_full_process, hui, hsc, check_sign_status, sign_in, hg,
        receive_voucher]
    simp [ht, hv]
  · rintro env hui hsc ⟨g, hg, hcase⟩
    rcases hcase with ht | hv
    · simp [execute_full_process, hui, hsc, check_sign_status, sign_in, hg, ht]
    · cases ht : pyTruthyGain g <;>
        simp [execute_full_process, hui, hsc, check_sign_status, sign_in, hg,
          ht, hv, receive_voucher]
  · intro env
    obtain ⟨ui, p1, sc, sg, vo, p2⟩ := env
    cases ui
    · simp [execute_full_process]
    · match sc with
      | none => simp [execute_full_process, check_sign_status]
      | some true => simp [execute_full_process, check_sign_status]
      | some false =>
        match sg with
        | none => simp [execute_full_process, check_sign_status, sign_in]
        | some g =>
          cases ht : pyTruthyGain g <;> cases vo <;>
            simp [execute_full_process, check_sign_status, sign_in, ht,
              receive_voucher]

/-- Witness for C4: the four abort/skip scenarios at concrete gateway
environments. -/
theorem execute_full_process_order_witness :
    execute_full_process ⟨false, [], none, none, false, []⟩ =
      (false, initClientState, [Step.getUserInfo]) ∧
    (execute_full_process ⟨true, [some 2], none, none, false, []⟩).1 = false ∧
    Step.signIn ∉
      (execute_full_process ⟨true, [some 2], some true, none, false, [some 2]⟩).2.2 ∧
    (execute_full_process ⟨true, [some 2], some false, some none, false, []⟩).1
      = false ∧
    (execute_full_process
      ⟨true, [some 2], some false, some (some 5), false, [some 6]⟩).1 = true := by
  obtain ⟨h1, h2, h3, h4, h5, -⟩ := execute_full_process_order
  exact ⟨h1 _ rfl, (h2 _ rfl rfl).1, (h3 _ rfl rfl).2.1,
    (h4 _ rfl rfl (Or.inr ⟨none, rfl, rfl, rfl⟩)).1,
    (h5 _ rfl rfl ⟨some 5, rfl, Or.inl (by decide)⟩).1⟩

/-! ## C5 — sign_in and the voucher-claim path -/

/-- C5 (amended): a successful response with a truthy `gainNum` yields
success with status `签到成功` and no voucher call; a successful response
without it triggers exactly one `receive_voucher` call and sets
`has_reward`, yielding success with status `领取奖励成功` iff the claim
succeeds and failure with status `领取奖励失败` otherwise; a failed
response yields failure with status `签到失败`.  Relative to a direct
sign-in success, a successful claim also returns `true`, but the
resulting states differ in both the `has_reward` flag and the status
string — not solely in the flag. -/
theorem sign_in_claim_flow :
    (∀ (s : ClientState) (g : Option Int) (b : Bool), pyTruthyGain g = true →
      sign_in s (some g) b = (true, { s with sign_status := "签到成功" }, 0)) ∧
    (∀ (s : ClientState) (g : Option Int) (b : Bool), pyTruthyGain g = false →
      (sign_in s (some g) b).2.2 = 1 ∧
      (sign_in s (some g) b).2.1.has_reward = true) ∧
    (∀ (s : ClientState) (g : Option Int), pyTruthyGain g = false →
      sign_in s (some g) true =
        (true, { s with sign_status := "领取奖励成功", has_reward := true }, 1)) ∧
    (∀ (s : ClientState) (g : Option Int), pyTruthyGain g = false →
      sign_in s (some g) false =
        (false, { s with sign_status := "领取奖励失败", has_reward := true }, 1)) ∧
    (∀ (s : ClientState) (b : Bool),
      sign_in s none b = (false, { s with sign_status := "签到失败" }, 0)) ∧
    (∀ (s : ClientState) (g g2 : Option Int), pyTruthyGain g = true →
      pyTruthyGain g2 = false →
      (sign_in s (some g) true).1 = true ∧
      (sign_in s (some g2) true).1 = true ∧
      (sign_in s (some g2) true).2.1 =
        { (sign_in s (some g) true).2.1 with
            has_reward := true, sign_status := "领取奖励成功" }) := by
  refine ⟨?_, ?_, ?_, ?_, ?_, ?_⟩
  · intro s g b ht; simp [sign_in, ht]
  · intro s g b ht
    cases b <;> simp [sign_in, ht, receive_voucher]
  · intro s g ht; simp [sign_in, ht, receive_voucher]
  · intro s g ht; simp [sign_in, ht, receive_voucher]
  · intro s b; simp [sign_in]
  · intro s g g2 ht ht2
    simp [sign_in, ht, ht2, receive_voucher]

/-- Counterexample for C5 as stated: a claim-then-sign-in success and a
direct sign-in success are NOT distinguished solely by the
`has_reward` flag — even after equating that flag the two result states
still differ (in the status string). -/
theorem sign_in_flag_only_counterexample :
    (sign_in initClientState (some (some 5)) true).1 = true ∧
    (sign_in initClientState (some none) true).1 = true ∧
    ¬ ((sign_in initClientState (some none) true).2.1 =
      { (sign_in initClientState (some (some 5)) true).2.1 with
          has_reward := true }) := by
  decide

/-- Witness for C5 at concrete inputs: gainNum 5 gives a direct
success, an absent gainNum with a successful claim gives the
claim-success status and one voucher call. -/
theorem sign_in_claim_flow_witness :
    sign_in initClientState (some (some 5)) false =
      (true, { initClientState with sign_status := "签到成功" }, 0) ∧
    sign_in initClientState (some none) true =
      (true, { initClientState with sign_status := "领取奖励成功", has_reward := true }, 1) ∧
    sign_in initClientState (some none) false =
      (false, { initClientState with sign_status := "领取奖励失败", has_reward := true }, 1) := by
  obtain ⟨h1, -, h3, h4, -, -⟩ := sign_in_claim_flow
  exact ⟨h1 _ _ _ (by decide), h3 _ _ (by decide), h4 _ _ (by decide)⟩

theorem execute_full_process_ok_delta (env : GatewayEnv)
    (h : (execute_full_process env).1 = true) :
    (execute_full_process env).2.1.jindou_reward =
      ((execute_full_process env).2.1.final_jindou : Int) -
        ((execute_full_process env).2.1.initial_jindou : Int) := by
  obtain ⟨ui, p1, sc, sg, vo, p2⟩ := env
  cases ui
  · simp [execute_full_process] at h
  · match sc with
    | none => simp [execute_full_process, check_sign_status] at h
    | some true =>
      simp [execute_full_process, check_sign_status, calculate_jindou_difference]
    | some false =>
      match sg with
      | none => simp [execute_full_process, check_sign_status, sign_in] at h
      | some g =>
        cases ht : pyTruthyGain g <;> cases vo <;>
          simp [execute_full_process, check_sign_status, sign_in, ht,
            receive_voucher, calculate_jindou_difference] at h ⊢

@[simp] theorem platformSignResult_initial_points (r2 : AttemptResult)
    (so : SignOutcome) (w : Weekday) (d : Date) (ge : GiftEnv) :
    (platformSignResult r2 so w d ge).initial_points = r2.initial_points := by
  cases so <;> rfl

@[simp] theorem platformSignResult_final_points (r2 : AttemptResult)
    (so : SignOutcome) (w : Weekday) (d : Date) (ge : GiftEnv) :
    (platformSignResult r2 so w d ge).final_points = r2.final_points := by
  cases so <;> rfl

@[simp] theorem platformSignResult_points_reward (r2 : AttemptResult)
    (so : SignOutcome) (w : Weekday) (d : Date) (ge : GiftEnv) :
    (platformSignResult r2 so w d ge).points_reward = r2.points_reward := by
  cases so <;> rfl

@[simp] theorem platformSignResult_jindou_success (r2 : AttemptResult)
    (so : SignOutcome) (w : Weekday) (d : Date) (ge : GiftEnv) :
    (platformSignResult r2 so w d ge).jindou_success = r2.jindou_success := by
  cases so <;> rfl

@[simp] theorem platformSignResult_jindou_status (r2 : AttemptResult)
    (so : SignOutcome) (w : Weekday) (d : Date) (ge : GiftEnv) :
    (platformSignResult r2 so w d ge).jindou_status = r2.jindou_status := by
  cases so <;> rfl

@[simp] theorem platformSignResult_initial_jindou (r2 : AttemptResult)
    (so : SignOutcome) (w : Weekday) (d : Date) (ge : GiftEnv) :
    (platformSignResult r2 so w d ge).initial_jindou = r2.initial_jindou := by
  cases so <;> rfl

@[simp] theorem platformSignResult_final_jindou (r2 : AttemptResult)
    (so : SignOutcome) (w : Weekday) (d : Date) (ge : GiftEnv) :
    (platformSignResult r2 so w d ge).final_jindou = r2.final_jindou := by
  cases so <;> rfl

@[simp] theorem platformSignResult_jindou_reward (r2 : AttemptResult)
    (so : SignOutcome) (w : Weekday) (d : Date) (ge : GiftEnv) :
    (platformSignResult r2 so w d ge).jindou_reward = r2.jindou_reward := by
  cases so <;> rfl

@[simp] theorem platformSignResult_has_jindou_reward (r2 : AttemptResult)
    (so : SignOutcome) (w : Weekday) (d : Date) (ge : GiftEnv) :
    (platformSignResult r2 so w d ge).has_jindou_reward = r2.has_jindou_reward := by
  cases so <;> rfl

@[simp] theorem platformSignResult_password_error (r2 : AttemptResult)
    (so : SignOutcome) (w : Weekday) (d : Date) (ge : GiftEnv) :
    (platformSignResult r2 so w d ge).password_error = r2.password_error := by
  cases so <;> rfl

@[simp] theorem platformSignResult_nickname (r2 : AttemptResult)
    (so : SignOutcome) (w : Weekday) (d : Date) (ge : GiftEnv) :
    (platformSignResult r2 so w d ge).nickname = r2.nickname := by
  cases so <;> rfl

@[simp] theorem platformSignResult_token_extracted (r2 : AttemptResult)
    (so : SignOutcome) (w : Weekday) (d : Date) (ge : GiftEnv) :
    (platformSignResult r2 so w d ge).token_extracted = r2.token_extracted := by
  cases so <;> rfl

@[simp] theorem platformSignResult_secretkey_extracted (r2 : AttemptResult)
    (so : SignOutcome) (w : Weekday) (d : Date) (ge : GiftEnv) :
    (platformSignResult r2 so w d ge).secretkey_extracted = r2.secretkey_extracted := by
  cases so <;> rfl

@[simp] theorem mergeIdentityFields_oshwhub_status (mr r : AttemptResult) :
    (mergeIdentityFields mr r).oshwhub_status = mr.oshwhub_status := by
  simp only [mergeIdentityFields]; split_ifs <;> rfl

@[simp] theorem mergeIdentityFields_oshwhub_success (mr r : AttemptResult) :
    (mergeIdentityFields mr r).oshwhub_success = mr.oshwhub_success := by
  simp only [mergeIdentityFields]; split_ifs <;> rfl

@[simp] theorem mergeIdentityFields_initial_points (mr r : AttemptResult) :
    (mergeIdentityFields mr r).initial_points = mr.initial_points := by
  simp only [mergeIdentityFields]; split_ifs <;> rfl

@[simp] theorem mergeIdentityFields_final_points (mr r : AttemptResult) :
    (mergeIdentityFields mr r).final_points = mr.final_points := by
  simp only [mergeIdentityFields]; split_ifs <;> rfl

@[simp] theorem mergeIdentityFields_points_reward (mr r : AttemptResult) :
    (mergeIdentityFields mr r).points_reward = mr.points_reward := by
  simp only [mergeIdentityFields]; split_ifs <;> rfl

@[simp] theorem mergeIdentityFields_reward_results (mr r : AttemptResult) :
    (mergeIdentityFields mr r).reward_results = mr.reward_results := by
  simp only [mergeIdentityFields]; split_ifs <;> rfl

@[simp] theorem mergeIdentityFields_jindou_status (mr r : AttemptResult) :
    (mergeIdentityFields mr r).jindou_status = mr.jindou_status := by
  simp only [mergeIdentityFields]; split_ifs <;> rfl

@[simp] theorem mergeIdentityFields_jindou_success (mr r : AttemptResult) :
    (mergeIdentityFields mr r).jindou_success = mr.jindou_success := by
  simp only [mergeIdentityFields]; split_ifs <;> rfl

@[simp] theorem mergeIdentityFields_initial_jindou (mr r : AttemptResult) :
    (mergeIdentityFields mr r).initial_jindou = mr.initial_jindou := by
  simp only [mergeIdentityFields]; split_ifs <;> rfl

@[simp] theorem mergeIdentityFields_final_jindou (mr r : AttemptResult) :
    (mergeIdentityFields mr r).final_jindou = mr.final_jindou := by
  simp only [mergeIdentityFields]; split_ifs <;> rfl

@[simp] theorem mergeIdentityFields_jindou_reward (mr r : AttemptResult) :
    (mergeIdentityFields mr r).jindou_reward = mr.jindou_reward := by
  simp only [mergeIdentityFields]; split_ifs <;> rfl

@[simp] theorem mergeIdentityFields_has_jindou_reward (mr r : AttemptResult) :
    (mergeIdentityFields mr r).has_jindou_reward = mr.has_jindou_reward := by
  simp only [mergeIdentityFields]; split_ifs <;> rfl

@[simp] theorem mergeIdentityFields_password_error (mr r : AttemptResult) :
    (mergeIdentityFields mr r).password_error = mr.password_error := by
  simp only [mergeIdentityFields]; split_ifs <;> rfl

@[simp] theorem mergeOshGroup_jindou_status (msO : Bool) (mr r : AttemptResult) :
    (mergeOshGroup msO mr r).2.jindou_status = mr.jindou_status := by
  simp only [mergeOshGroup]; split_ifs <;> rfl

@[simp] theorem mergeOshGroup_jindou_success (msO : Bool) (mr r : AttemptResult) :
    (mergeOshGroup msO mr r).2.jindou_success = mr.jindou_success := by
  simp only [mergeOshGroup]; split_ifs <;> rfl

@[simp] theorem mergeOshGroup_initial_jindou (msO : Bool) (mr r : AttemptResult) :
    (mergeOshGroup msO mr r).2.initial_jindou = mr.initial_jindou := by
  simp only [mergeOshGroup]; split_ifs <;> rfl

@[simp] theorem mergeOshGroup_final_jindou (msO : Bool) (mr r : AttemptResult) :
    (mergeOshGroup msO mr r).2.final_jindou = mr.final_jindou := by
  simp only [mergeOshGroup]; split_ifs <;> rfl

@[simp] theorem mergeOshGroup_jindou_reward (msO : Bool) (mr r : AttemptResult) :
    (mergeOshGroup msO mr r).2.jindou_reward = mr.jindou_reward := by
  simp only [mergeOshGroup]; split_ifs <;> rfl

@[simp] theorem mergeOshGroup_has_jindou_reward (msO : Bool) (mr r : AttemptResult) :
    (mergeOshGroup msO mr r).2.has_jindou_reward = mr.has_jindou_reward := by
  simp only [mergeOshGroup]; split_ifs <;> rfl

@[simp] theorem mergeOshGroup_password_error (msO : Bool) (mr r : AttemptResult) :
    (mergeOshGroup msO mr r).2.password_error = mr.password_error := by
  simp only [mergeOshGroup]; split_ifs <;> rfl

@[simp] theorem mergeOshGroup_nickname (msO : Bool) (mr r : AttemptResult) :
    (mergeOshGroup msO mr r).2.nickname = mr.nickname := by
  simp only [mergeOshGroup]; split_ifs <;> rfl

@[simp] theorem mergeJindouGroup_oshwhub_status (msJ : Bool) (mr r : AttemptResult) :
    (mergeJindouGroup msJ mr r).2.oshwhub_status = mr.oshwhub_status := by
  simp only [mergeJindouGroup]; split_ifs <;> rfl

@[simp] theorem mergeJindouGroup_oshwhub_success (msJ : Bool) (mr r : AttemptResult) :
    (mergeJindouGroup msJ mr r).2.oshwhub_success = mr.oshwhub_success := by
  simp only [mergeJindouGroup]; split_ifs <;> rfl

@[simp] theorem mergeJindouGroup_initial_points (msJ : Bool) (mr r : AttemptResult) :
    (mergeJindouGroup msJ mr r).2.initial_points = mr.initial_points := by
  simp only [mergeJindouGroup]; split_ifs <;> rfl

@[simp] theorem mergeJindouGroup_final_points (msJ : Bool) (mr r : AttemptResult) :
    (mergeJindouGroup msJ mr r).2.final_points = mr.final_points := by
  simp only [mergeJindouGroup]; split_ifs <;> rfl

@[simp] theorem mergeJindouGroup_points_reward (msJ : Bool) (mr r : AttemptResult) :
    (mergeJindouGroup msJ mr r).2.points_reward = mr.points_reward := by
  simp only [mergeJindouGroup]; split_ifs <;> rfl

@[simp] theorem mergeJindouGroup_reward_results (msJ : Bool) (mr r : AttemptResult) :
    (mergeJindouGroup msJ mr r).2.reward_results = mr.reward_results := by
  simp only [mergeJindouGroup]; split_ifs <;> rfl

@[simp] theorem mergeJindouGroup_password_error (msJ : Bool) (mr r : AttemptResult) :
    (mergeJindouGroup msJ mr r).2.password_error = mr.password_error := by
  simp only [mergeJindouGroup]; split_ifs <;> rfl

@[simp] theorem mergeJindouGroup_nickname (msJ : Bool) (mr r : AttemptResult) :
    (mergeJindouGroup msJ mr r).2.nickname = mr.nickname := by
  simp only [mergeJindouGroup]; split_ifs <;> rfl

theorem mergeOshGroup_flag (msO : Bool) (mr r : AttemptResult) :
    (mergeOshGroup msO mr r).1 = (msO || r.oshwhub_success) := by
  cases msO <;> cases hro : r.oshwhub_success <;>
    simp [mergeOshGroup, hro]

theorem mergeJindouGroup_flag (msJ : Bool) (mr r : AttemptResult) :
    (mergeJindouGroup msJ mr r).1 = (msJ || r.jindou_success) := by
  cases msJ <;> cases hrj : r.jindou_success <;>
    simp [mergeJindouGroup, hrj]

@[simp] theorem finalMergeOshGroup_jindou_status (orig finalR : AttemptResult) :
    (finalMergeOshGroup orig finalR).jindou_status = orig.jindou_status := by
  simp only [finalMergeOshGroup]; split_ifs <;> rfl

@[simp] theorem finalMergeOshGroup_jindou_success (orig finalR : AttemptResult) :
    (finalMergeOshGroup orig finalR).jindou_success = orig.jindou_success := by
  simp only [finalMergeOshGroup]; split_ifs <;> rfl

@[simp] theorem finalMergeOshGroup_initial_jindou (orig finalR : AttemptResult) :
    (finalMergeOshGroup orig finalR).initial_jindou = orig.initial_jindou := by
  simp only [finalMergeOshGroup]; split_ifs <;> rfl

@[simp] theorem finalMergeOshGroup_final_jindou (orig finalR : AttemptResult) :
    (finalMergeOshGroup orig finalR).final_jindou = orig.final_jindou := by
  simp only [finalMergeOshGroup]; split_ifs <;> rfl

@[simp] theorem finalMergeOshGroup_jindou_reward (orig finalR : AttemptResult) :
    (finalMergeOshGroup orig finalR).jindou_reward = orig.jindou_reward := by
  simp only [finalMergeOshGroup]; split_ifs <;> rfl

@[simp] theorem finalMergeOshGroup_has_jindou_reward (orig finalR : AttemptResult) :
    (finalMergeOshGroup orig finalR).has_jindou_reward = orig.has_jindou_reward := by
  simp only [finalMergeOshGroup]; split_ifs <;> rfl

@[simp] theorem finalMergeOshGroup_password_error (orig finalR : AttemptResult) :
    (finalMergeOshGroup orig finalR).password_error = orig.password_error := by
  simp only [finalMergeOshGroup]; split_ifs <;> rfl

@[simp] theorem finalMergeOshGroup_nickname (orig finalR : AttemptResult) :
    (finalMergeOshGroup orig finalR).nickname = orig.nickname := by
  simp only [finalMergeOshGroup]; split_ifs <;> rfl

@[simp] theorem finalMergeJindouGroup_oshwhub_status (orig finalR : AttemptResult) :
    (finalMergeJindouGroup orig finalR).oshwhub_status = orig.oshwhub_status := by
  simp only [finalMergeJindouGroup]; split_ifs <;> rfl

@[simp] theorem finalMergeJindouGroup_oshwhub_success (orig finalR : AttemptResult) :
    (finalMergeJindouGroup orig finalR).oshwhub_success = orig.oshwhub_success := by
  simp only [finalMergeJindouGroup]; split_ifs <;> rfl

@[simp] theorem finalMergeJindouGroup_initial_points (orig finalR : AttemptResult) :
    (finalMergeJindouGroup orig finalR).initial_points = orig.initial_points := by
  simp only [finalMergeJindouGroup]; split_ifs <;> rfl

@[simp] theorem finalMergeJindouGroup_final_points (orig finalR : AttemptResult) :
    (finalMergeJindouGroup orig finalR).final_points = orig.final_points := by
  simp only [finalMergeJindouGroup]; split_ifs <;> rfl

@[simp] theorem finalMergeJindouGroup_points_reward (orig finalR : AttemptResult) :
    (finalMergeJindouGroup orig finalR).points_reward = orig.points_reward := by
  simp only [finalMergeJindouGroup]; split_ifs <;> rfl

@[simp] theorem finalMergeJindouGroup_reward_results (orig finalR : AttemptResult) :
    (finalMergeJindouGroup orig finalR).reward_results = orig.reward_results := by
  simp only [finalMergeJindouGroup]; split_ifs <;> rfl

@[simp] theorem finalMergeJindouGroup_password_error (orig finalR : AttemptResult) :
    (finalMergeJindouGroup orig finalR).password_error = orig.password_error := by
  simp only [finalMergeJindouGroup]; split_ifs <;> rfl

@[simp] theorem finalMergeJindouGroup_nickname (orig finalR : AttemptResult) :
    (finalMergeJindouGroup orig finalR).nickname = orig.nickname := by
  simp only [finalMergeJindouGroup]; split_ifs <;> rfl

theorem finalMergeOshGroup_success_flag (orig finalR : AttemptResult) :
    (finalMergeOshGroup orig finalR).oshwhub_success =
      (orig.oshwhub_success || finalR.oshwhub_success) := by
  cases ho : orig.oshwhub_success <;> cases hf : finalR.oshwhub_success <;>
    simp [finalMergeOshGroup, ho, hf]

theorem finalMergeJindouGroup_success_flag (orig finalR : AttemptResult) :
    (finalMergeJindouGroup orig finalR).jindou_success =
      (orig.jindou_success || finalR.jindou_success) := by
  cases ho : orig.jindou_success <;> cases hf : finalR.jindou_success <;>
    simp [finalMergeJindouGroup, ho, hf]

/-! ## C3 — reward delta identity -/

/-- Counterexample for C3 as stated: an attempt whose flow is
interrupted after the initial balance read (here: the uncaught wait at
line 906 of src/jlc.py raises before the final platform-points read)
produces a result record with `points_reward = 0` but
`final_points − initial_points = −1` — the delta identity does not hold
for every produced record. -/
theorem reward_delta_identity_counterexample :
    (sign_in_account 1 0 false
      ⟨true, true, true, false, true, false, true, none, [some 1], true,
        SignOutcome.clickFailed, Weekday.monday, ⟨2024, 1, 30⟩,
        ⟨true, true, none, true, none⟩, false, [], true, false, false,
        ⟨false, [], none, none, false, []⟩⟩).initial_points = 1 ∧
    (sign_in_account 1 0 false
      ⟨true, true, true, false, true, false, true, none, [some 1], true,
        SignOutcome.clickFailed, Weekday.monday, ⟨2024, 1, 30⟩,
        ⟨true, true, none, true, none⟩, false, [], true, false, false,
        ⟨false, [], none, none, false, []⟩⟩).final_points = 0 ∧
    ¬ ((sign_in_account 1 0 false
      ⟨true, true, true, false, true, false, true, none, [some 1], true,
        SignOutcome.clickFailed, Weekday.monday, ⟨2024, 1, 30⟩,
        ⟨true, true, none, true, none⟩, false, [], true, false, false,
        ⟨false, [], none, none, false, []⟩⟩).points_reward =
      ((sign_in_account 1 0 false
        ⟨true, true, true, false, true, false, true, none, [some 1], true,
          SignOutcome.clickFailed, Weekday.monday, ⟨2024, 1, 30⟩,
          ⟨true, true, none, true, none⟩, false, [], true, false, false,
          ⟨false, [], none, none, false, []⟩⟩).final_points : Int) -
      ((sign_in_account 1 0 false
        ⟨true, true, true, false, true, false, true, none, [some 1], true,
          SignOutcome.clickFailed, Weekday.monday, ⟨2024, 1, 30⟩,
          ⟨true, true, none, true, none⟩, false, [], true, false, false,
          ⟨false, [], none, none, false, []⟩⟩).initial_points : Int)) := by
  decide

/-- C3 (amended): the reward-delta identity
`reward = final − initial` (negative values kept as-is) holds for every
record whose flow actually reached the delta-computation step:
`calculate_jindou_difference` always establishes it; the
`execute_full_process` result state satisfies it whenever the process
returns success; an attempt result satisfies it for the platform points
whenever the attempt reached the final points read, and for the jindou
fields whenever the gateway flow succeeded; and the merge copies each
delta field group verbatim from one of its two inputs, so merged
records inherit the identity from the record the group came from. -/
theorem reward_delta_identity :
    (∀ s : ClientState, (calculate_jindou_difference s).jindou_reward =
      ((calculate_jindou_difference s).final_jindou : Int) -
        ((calculate_jindou_difference s).initial_jindou : Int)) ∧
    (∀ env : GatewayEnv, (execute_full_process env).1 = true →
      (execute_full_process env).2.1.jindou_reward =
        ((execute_full_process env).2.1.final_jindou : Int) -
          ((execute_full_process env).2.1.initial_jindou : Int)) ∧
    (∀ (idx rc : Nat) (b : Bool) (env : OrchEnv),
      env.ensureLoginOk = true → env.loginInputFound = true →
      env.loginBtnFound = true → env.pwErrorAfterLogin = false →
      env.sliderAppears = true → env.pwErrorAfterSlider = false →
      env.jumped = true → env.bodyWait1Ok = true → env.bodyWait2Ok = true →
      (sign_in_account idx rc b env).points_reward =
        ((sign_in_account idx rc b env).final_points : Int) -
          ((sign_in_account idx rc b env).initial_points : Int)) ∧
    (∀ (idx rc : Nat) (b : Bool) (env : OrchEnv),
      env.ensureLoginOk = true → env.loginInputFound = true →
      env.loginBtnFound = true → env.pwErrorAfterLogin = false →
      env.sliderAppears = true → env.pwErrorAfterSlider = false →
      env.jumped = true → env.bodyWait1Ok = true → env.bodyWait2Ok = true →
      env.mJlcNavOk = true → env.tokenFound = true →
      env.secretkeyFound = true →
      (execute_full_process env.gateway).1 = true →
      (sign_in_account idx rc b env).jindou_success = true ∧
      (sign_in_account idx rc b env).jindou_reward =
        ((sign_in_account idx rc b env).final_jindou : Int) -
          ((sign_in_account idx rc b env).initial_jindou : Int)) ∧
    (∀ (ms : Bool × Bool) (mr r : AttemptResult),
      (((merge_attempt ms mr r).2.initial_points = mr.initial_points ∧
        (merge_attempt ms mr r).2.final_points = mr.final_points ∧
        (merge_attempt ms mr r).2.points_reward = mr.points_reward) ∨
       ((merge_attempt ms mr r).2.initial_points = r.initial_points ∧
        (merge_attempt ms mr r).2.final_points = r.final_points ∧
        (merge_attempt ms mr r).2.points_reward = r.points_reward)) ∧
      (((merge_attempt ms mr r).2.initial_jindou = mr.initial_jindou ∧
        (merge_attempt ms mr r).2.final_jindou = mr.final_jindou ∧
        (merge_attempt ms mr r).2.jindou_reward = mr.jindou_reward) ∨
       ((merge_attempt ms mr r).2.initial_jindou = r.initial_jindou ∧
        (merge_attempt ms mr r).2.final_jindou = r.final_jindou ∧
        (merge_attempt ms mr r).2.jindou_reward = r.jindou_reward))) := by
  refine ⟨fun s => rfl, execute_full_process_ok_delta, ?_, ?_, ?_⟩
  · intro idx rc b env h1 h2 h3 h4 h5 h6 h7 h8 h9
    obtain ⟨e1, e2, e3, e4, e5, e6, e7, nick, op1, e8, so, wd, dt, ge, e9,
      op2, mj, tk, sk, gw⟩ := env
    simp only at h1 h2 h3 h4 h5 h6 h7 h8 h9
    subst h1 h2 h3 h4 h5 h6 h7 h8 h9
    cases so <;> cases mj <;> cases tk <;> cases sk <;> rfl
  · intro idx rc b env h1 h2 h3 h4 h5 h6 h7 h8 h9 hm htk hsk hgw
    obtain ⟨e1, e2, e3, e4, e5, e6, e7, nick, op1, e8, so, wd, dt, ge, e9,
      op2, mj, tk, sk, gw⟩ := env
    simp only at h1 h2 h3 h4 h5 h6 h7 h8 h9 hm htk hsk hgw
    subst h1 h2 h3 h4 h5 h6 h7 h8 h9 hm htk hsk
    cases so <;> exact ⟨hgw, execute_full_process_ok_delta _ hgw⟩
  · intro ms mr r
    constructor
    · cases hro : r.oshwhub_success <;> cases hm1 : ms.1 <;>
        simp [merge_attempt, mergeOshGroup, hro, hm1]
    · cases hrj : r.jindou_success <;> cases hm2 : ms.2 <;>
        simp [merge_attempt, mergeJindouGroup, hrj, hm2]

/-- Witness for C3 (amended) at a concrete attempt: a completed attempt
satisfies the points identity, and a successful gateway flow whose final
balance read fails all retries yields the negative delta −5 kept as-is. -/
theorem reward_delta_identity_witness :
    (sign_in_account 1 0 false
      ⟨true, true, true, false, true, false, true, none, [some 2], true,
        SignOutcome.alreadySigned, Weekday.monday, ⟨2024, 1, 30⟩,
        ⟨true, true, none, true, none⟩, true, [some 5], true, true, true,
        ⟨true, [some 5], some true, none, false,
          [none, none, none, none, none]⟩⟩).points_reward =
      ((sign_in_account 1 0 false
        ⟨true, true, true, false, true, false, true, none, [some 2], true,
          SignOutcome.alreadySigned, Weekday.monday, ⟨2024, 1, 30⟩,
          ⟨true, true, none, true, none⟩, true, [some 5], true, true, true,
          ⟨true, [some 5], some true, none, false,
            [none, none, none, none, none]⟩⟩).final_points : Int) -
      ((sign_in_account 1 0 false
        ⟨true, true, true, false, true, false, true, none, [some 2], true,
          SignOutcome.alreadySigned, Weekday.monday, ⟨2024, 1, 30⟩,
          ⟨true, true, none, true, none⟩, true, [some 5], true, true, true,
          ⟨true, [some 5], some true, none, false,
            [none, none, none, none, none]⟩⟩).initial_points : Int) ∧
    (sign_in_account 1 0 false
      ⟨true, true, true, false, true, false, true, none, [some 2], true,
        SignOutcome.alreadySigned, Weekday.monday, ⟨2024, 1, 30⟩,
        ⟨true, true, none, true, none⟩, true, [some 5], true, true, true,
        ⟨true, [some 5], some true, none, false,
          [none, none, none, none, none]⟩⟩).jindou_success = true ∧
    (sign_in_account 1 0 false
      ⟨true, true, true, false, true, false, true, none, [some 2], true,
        SignOutcome.alreadySigned, Weekday.monday, ⟨2024, 1, 30⟩,
        ⟨true, true, none, true, none⟩, true, [some 5], true, true, true,
        ⟨true, [some 5], some true, none, false,
          [none, none, none, none, none]⟩⟩).jindou_reward = -5 := by
  obtain ⟨-, -, h3, h4, -⟩ := reward_delta_identity
  exact ⟨h3 1 0 false _ rfl rfl rfl rfl rfl rfl rfl rfl rfl,
    (h4 1 0 false _ rfl rfl rfl rfl rfl rfl rfl rfl rfl rfl rfl rfl
      (by decide)).1, by decide⟩

/-! ## C1 — merge monotonicity -/

theorem processGo_flags_mono (f : Nat → AttemptResult) :
    ∀ (fuel attempt : Nat) (ms : Bool × Bool) (mr : AttemptResult),
      (ms.1 = true → (processGo f attempt fuel ms mr).1.1 = true) ∧
      (ms.2 = true → (processGo f attempt fuel ms mr).1.2 = true) := by
  intro fuel
  induction fuel with
  | zero => intro attempt ms mr; exact ⟨fun h => h, fun h => h⟩
  | succ n ih =>
    intro attempt ms mr
    by_cases hpw : (f attempt).password_error = true
    · constructor <;> intro h <;> simpa [processGo, hpw] using h
    · have hpw2 : (f attempt).password_error = false := by
        simpa using hpw
      constructor <;> intro h <;>
        simp only [processGo, hpw2, Bool.false_eq_true, if_false] <;>
        by_cases hstop :
          (¬ should_retry (merge_attempt ms mr (f attempt)).1
              (merge_attempt ms mr (f attempt)).2.password_error ∨ 3 ≤ attempt)
      · rw [if_pos hstop]
        show (mergeOshGroup ms.1 mr (f attempt)).1 = true
        rw [mergeOshGroup_flag, h]
        rfl
      · rw [if_neg hstop]
        refine (ih (attempt + 1) _ _).1 ?_
        show (mergeOshGroup ms.1 mr (f attempt)).1 = true
        rw [mergeOshGroup_flag, h]
        rfl
      · rw [if_pos hstop]
        show (mergeJindouGroup ms.2 (mergeOshGroup ms.1 mr (f attempt)).2
          (f attempt)).1 = true
        rw [mergeJindouGroup_flag, h]
        rfl
      · rw [if_neg hstop]
        refine (ih (attempt + 1) _ _).2 ?_
        show (mergeJindouGroup ms.2 (mergeOshGroup ms.1 mr (f attempt)).2
          (f attempt)).1 = true
        rw [mergeJindouGroup_flag, h]
        rfl

/-- C1 (amended): in both the per-account merge and the final-retry
merge, the success flags are monotonic (`merged || incoming`; once true
they never revert), and the status/points/reward/gift field groups are
overwritten exactly when the incoming attempt brings the corresponding
success that the merged record lacks — with one exception: an incoming
password-error attempt overwrites `oshwhub_status` with `密码错误` and
`nickname` with `未知` regardless of the success flags. -/
theorem merge_monotonicity :
    (∀ (ms : Bool × Bool) (mr r : AttemptResult),
      (merge_attempt ms mr r).1.1 = (ms.1 || r.oshwhub_success) ∧
      (merge_attempt ms mr r).1.2 = (ms.2 || r.jindou_success)) ∧
    (∀ (f : Nat → AttemptResult) (fuel attempt : Nat) (ms : Bool × Bool)
        (mr : AttemptResult),
      (ms.1 = true → (processGo f attempt fuel ms mr).1.1 = true) ∧
      (ms.2 = true → (processGo f attempt fuel ms mr).1.2 = true)) ∧
    (∀ (ms : Bool × Bool) (mr r : AttemptResult),
      r.oshwhub_success = false ∨ ms.1 = true →
      (merge_attempt ms mr r).2.oshwhub_status = mr.oshwhub_status ∧
      (merge_attempt ms mr r).2.initial_points = mr.initial_points ∧
      (merge_attempt ms mr r).2.final_points = mr.final_points ∧
      (merge_attempt ms mr r).2.points_reward = mr.points_reward ∧
      (merge_attempt ms mr r).2.reward_results = mr.reward_results) ∧
    (∀ (ms : Bool × Bool) (mr r : AttemptResult),
      r.jindou_success = false ∨ ms.2 = true →
      (merge_attempt ms mr r).2.jindou_status = mr.jindou_status ∧
      (merge_attempt ms mr r).2.initial_jindou = mr.initial_jindou ∧
      (merge_attempt ms mr r).2.final_jindou = mr.final_jindou ∧
      (merge_attempt ms mr r).2.jindou_reward = mr.jindou_reward ∧
      (merge_attempt ms mr r).2.has_jindou_reward = mr.has_jindou_reward) ∧
    (∀ (ms : Bool × Bool) (mr r : AttemptResult),
      r.oshwhub_success = true → ms.1 = false →
      (merge_attempt ms mr r).2.oshwhub_status = r.oshwhub_status ∧
      (merge_attempt ms mr r).2.initial_points = r.initial_points ∧
      (merge_attempt ms mr r).2.final_points = r.final_points ∧
      (merge_attempt ms mr r).2.points_reward = r.points_reward ∧
      (merge_attempt ms mr r).2.reward_results = r.reward_results) ∧
    (∀ (ms : Bool × Bool) (mr r : AttemptResult),
      r.jindou_success = true → ms.2 = false →
      (merge_attempt ms mr r).2.jindou_status = r.jindou_status ∧
      (merge_attempt ms mr r).2.initial_jindou = r.initial_jindou ∧
      (merge_attempt ms mr r).2.final_jindou = r.final_jindou ∧
      (merge_attempt ms mr r).2.jindou_reward = r.jindou_reward ∧
      (merge_attempt ms mr r).2.has_jindou_reward = r.has_jindou_reward) ∧
    (∀ orig finalR : AttemptResult, finalR.password_error = false →
      (final_retry_merge orig finalR).oshwhub_success =
        (orig.oshwhub_success || finalR.oshwhub_success) ∧
      (final_retry_merge orig finalR).jindou_success =
        (orig.jindou_success || finalR.jindou_success)) ∧
    (∀ orig finalR : AttemptResult, finalR.password_error = false →
      (finalR.oshwhub_success = false ∨ orig.oshwhub_success = true →
        (final_retry_merge orig finalR).oshwhub_status = orig.oshwhub_status ∧
        (final_retry_merge orig finalR).initial_points = orig.initial_points ∧
        (final_retry_merge orig finalR).final_points = orig.final_points ∧
        (final_retry_merge orig finalR).points_reward = orig.points_reward ∧
        (final_retry_merge orig finalR).reward_results = orig.reward_results) ∧
      (finalR.jindou_success = false ∨ orig.jindou_success = true →
        (final_retry_merge orig finalR).jindou_status = orig.jindou_status ∧
        (final_retry_merge orig finalR).initial_jindou = orig.initial_jindou ∧
        (final_retry_merge orig finalR).final_jindou = orig.final_jindou ∧
        (final_retry_merge orig finalR).jindou_reward = orig.jindou_reward ∧
        (final_retry_merge orig finalR).has_jindou_reward =
          orig.has_jindou_reward)) ∧
    (∀ orig finalR : AttemptResult, finalR.password_error = true →
      final_retry_merge orig finalR =
        { orig with password_error := true, oshwhub_status := "密码错误"
                    nickname := "未知", is_final_retry := true
                    retry_count := orig.retry_count + 1 }) := by
  refine ⟨?_, processGo_flags_mono, ?_, ?_, ?_, ?_, ?_, ?_, ?_⟩
  · intro ms mr r
    exact ⟨mergeOshGroup_flag ms.1 mr r, mergeJindouGroup_flag ms.2 _ r⟩
  · rintro ms mr r (h | h) <;> simp [merge_attempt, mergeOshGroup, h]
  · rintro ms mr r (h | h) <;> simp [merge_attempt, mergeJindouGroup, h]
  · intro ms mr r h1 h2
    simp [merge_attempt, mergeOshGroup, h1, h2]
  · intro ms mr r h1 h2
    simp [merge_attempt, mergeJindouGroup, h1, h2]
  · intro orig finalR hp
    simp [final_retry_merge, hp, finalMergeOshGroup_success_flag,
      finalMergeJindouGroup_success_flag]
  · intro orig finalR hp
    constructor
    · rintro (h | h) <;> simp [final_retry_merge, hp, finalMergeOshGroup, h]
    · rintro (h | h) <;> simp [final_retry_merge, hp, finalMergeJindouGroup, h]
  · intro orig finalR hp
    simp [final_retry_merge, hp]

/-- Counterexample for C1 as stated: after a first attempt that won the
platform sign-in (status `签到成功`), a second attempt reporting a
password error — an attempt with `oshwhub_success = false` — still
overwrites the merged `oshwhub_status` field with `密码错误`, while the
merged success flag stays true. -/
theorem merge_monotonicity_counterexample :
    (process_single_account 1
      (fun n => if n = 0 then
        { initResult 1 0 false with
            oshwhub_success := true, oshwhub_status := "签到成功" }
      else
        { initResult 1 1 false with password_error := true })).1.oshwhub_status
      = "密码错误" ∧
    (process_single_account 1
      (fun n => if n = 0 then
        { initResult 1 0 false with
            oshwhub_success := true, oshwhub_status := "签到成功" }
      else
        { initResult 1 1 false with password_error := true })).1.oshwhub_success
      = true ∧
    ((fun n => if n = 0 then
        { initResult 1 0 false with
            oshwhub_success := true, oshwhub_status := "签到成功" }
      else
        { initResult 1 1 false with password_error := true }) 1).oshwhub_success
      = false := by
  decide

/-- Witness for C1 at concrete records: a failed incoming attempt leaves
the merged group untouched, a successful one overwrites it, and a
password-error final retry freezes the record. -/
theorem merge_monotonicity_witness :
    ((merge_attempt (true, false) (initResult 1 0 false)
      { initResult 1 1 false with oshwhub_success := true, oshwhub_status := "签到成功" }).2.oshwhub_status =
      (initResult 1 0 false).oshwhub_status) ∧
    ((merge_attempt (false, false) (initResult 1 0 false)
      { initResult 1 1 false with oshwhub_success := true, oshwhub_status := "签到成功" }).2.oshwhub_status = "签到成功") ∧
    ((final_retry_merge (initResult 1 0 false)
      { initResult 1 1 false with password_error := true }).oshwhub_status =
      "密码错误") := by
  obtain ⟨-, -, h3, -, h5, -, -, -, h9⟩ := merge_monotonicity
  refine ⟨(h3 (true, false) _ _ (Or.inr rfl)).1, ?_, ?_⟩
  · exact (h5 (false, false) (initResult 1 0 false)
      { initResult 1 1 false with oshwhub_success := true, oshwhub_status := "签到成功" } rfl rfl).1
  · rw [h9 _ _ rfl]

/-! ## C2 — password-error freeze -/

theorem processGo_pw_not_before_last (f : Nat → AttemptResult) :
    ∀ (fuel attempt : Nat) (ms : Bool × Bool) (mr : AttemptResult) (j : Nat),
      attempt ≤ j → j + 1 < (processGo f attempt fuel ms mr).2.2 →
      (f j).password_error = false := by
  intro fuel
  induction fuel with
  | zero =>
    intro attempt ms mr j hj hlt
    simp [processGo] at hlt
  | succ n ih =>
    intro attempt ms mr j hj hlt
    by_cases hpw : (f attempt).password_error = true
    · simp only [processGo, hpw, if_true] at hlt
      omega
    · have hpw2 : (f attempt).password_error = false := by simpa using hpw
      simp only [processGo, hpw2, Bool.false_eq_true, if_false] at hlt
      by_cases hstop :
          (¬ should_retry (merge_attempt ms mr (f attempt)).1
              (merge_attempt ms mr (f attempt)).2.password_error ∨ 3 ≤ attempt)
      · rw [if_pos hstop] at hlt
        simp at hlt
        omega
      · rw [if_neg hstop] at hlt
        rcases Nat.eq_or_lt_of_le hj with hja | hja
        · exact hja ▸ hpw2
        · exact ih (attempt + 1) _ _ j hja hlt

theorem processGo_freeze (f g : Nat → AttemptResult) :
    ∀ (fuel attempt : Nat) (ms : Bool × Bool) (mr : AttemptResult) (k : Nat),
      attempt ≤ k → (∀ j, attempt ≤ j → j ≤ k → g j = f j) →
      (∀ j, attempt ≤ j → j < k → (f j).password_error = false) →
      (f k).password_error = true →
      processGo g attempt fuel ms mr = processGo f attempt fuel ms mr := by
  intro fuel
  induction fuel with
  | zero => intro attempt ms mr k _ _ _ _; rfl
  | succ n ih =>
    intro attempt ms mr k hak hagree hfree hk
    rcases Nat.eq_or_lt_of_le hak with heq | hlt
    · subst heq
      have hga : g attempt = f attempt := hagree attempt le_rfl le_rfl
      simp only [processGo, hga, hk, if_true]
    · have hga : g attempt = f attempt :=
        hagree attempt le_rfl (Nat.le_of_lt hlt)
      have hfa : (f attempt).password_error = false :=
        hfree attempt le_rfl hlt
      simp only [processGo, hga, hfa, Bool.false_eq_true, if_false]
      by_cases hstop :
          (¬ should_retry (merge_attempt ms mr (f attempt)).1
              (merge_attempt ms mr (f attempt)).2.password_error ∨ 3 ≤ attempt)
      · rw [if_pos hstop, if_pos hstop]
      · rw [if_neg hstop, if_neg hstop]
        exact ih (attempt + 1) _ _ k hlt
          (fun j hj1 hj2 => hagree j (by omega) hj2)
          (fun j hj1 hj2 => hfree j (by omega) hj2) hk

theorem processGo_pw_result (f : Nat → AttemptResult) :
    ∀ (fuel attempt : Nat) (ms : Bool × Bool) (mr : AttemptResult) (k : Nat),
      (processGo f attempt fuel ms mr).2.2 = k + 1 → attempt ≤ k →
      (f k).password_error = true →
      (processGo f attempt fuel ms mr).2.1.password_error = true ∧
      (processGo f attempt fuel ms mr).2.1.oshwhub_status = "密码错误" ∧
      (processGo f attempt fuel ms mr).2.1.nickname = "未知" := by
  intro fuel
  induction fuel with
  | zero =>
    intro attempt ms mr k hused _ _
    simp [processGo] at hused
  | succ n ih =>
    intro attempt ms mr k hused hak hk
    rcases Nat.eq_or_lt_of_le hak with heq | hlt
    · subst heq
      simp [processGo, hk]
    · have hfa : (f attempt).password_error = false := by
        by_contra hc
        have hfa2 : (f attempt).password_error = true := by
          simpa using hc
        simp only [processGo, hfa2, if_true] at hused
        omega
      simp only [processGo, hfa, Bool.false_eq_true, if_false] at hused ⊢
      by_cases hstop :
          (¬ should_retry (merge_attempt ms mr (f attempt)).1
              (merge_attempt ms mr (f attempt)).2.password_error ∨ 3 ≤ attempt)
      · rw [if_pos hstop] at hused
        simp at hused
        omega
      · rw [if_neg hstop] at hused ⊢
        exact ih (attempt + 1) _ _ k hused hlt hk

/-- C2: once an attempt reports a password error, the per-account retry
loop stops immediately (every attempt before the last processed one is
password-error-free); when the last processed attempt is a password
error the merged record carries `password_error` with status `密码错误`
and is frozen — the outcome is entirely determined by the attempts up
to that one; and password-error accounts are excluded from the
cross-account final-retry pass, which leaves their records untouched. -/
theorem password_error_freeze :
    (∀ (idx : Nat) (f : Nat → AttemptResult) (j : Nat),
      j + 1 < (process_single_account idx f).2 →
      (f j).password_error = false) ∧
    (∀ (idx : Nat) (f : Nat → AttemptResult) (k : Nat),
      (process_single_account idx f).2 = k + 1 →
      (f k).password_error = true →
      (process_single_account idx f).1.password_error = true ∧
      (process_single_account idx f).1.oshwhub_status = "密码错误" ∧
      (∀ g : Nat → AttemptResult, (∀ j, j ≤ k → g j = f j) →
        process_single_account idx g = process_single_account idx f)) ∧
    (∀ r : AttemptResult, r.password_error = true →
      needsFinalRetry r = false) ∧
    (∀ (results : List AttemptResult) (finalFor : Nat → AttemptResult)
        (i : Nat) (r : AttemptResult),
      results[i]? = some r → r.password_error = true →
      (execute_final_retry results finalFor)[i]? = some r) := by
  refine ⟨?_, ?_, ?_, ?_⟩
  · intro idx f j hlt
    exact processGo_pw_not_before_last f 4 0 (false, false)
      (initResult idx 0 false) j (Nat.zero_le j) hlt
  · intro idx f k hused hk
    have hpw := processGo_pw_result f 4 0 (false, false)
      (initResult idx 0 false) k hused (Nat.zero_le k) hk
    refine ⟨hpw.1, hpw.2.1, ?_⟩
    intro g hagree
    have hused2 : (processGo f 0 4 (false, false)
        (initResult idx 0 false)).2.2 = k + 1 := hused
    have hfree : ∀ j, 0 ≤ j → j < k → (f j).password_error = false := by
      intro j _ hj
      exact processGo_pw_not_before_last f 4 0 (false, false)
        (initResult idx 0 false) j (Nat.zero_le j) (by omega)
    have := processGo_freeze f g 4 0 (false, false) (initResult idx 0 false) k
      (Nat.zero_le k) (fun j _ hj => hagree j hj) hfree hk
    simp [process_single_account, this]
  · intro r h
    simp [needsFinalRetry, h]
  · intro results finalFor i r hget hpw
    have hmap : (execute_final_retry results finalFor)[i]? =
        (results.enum[i]?).map
          (fun p => if needsFinalRetry p.2 then
            final_retry_merge p.2 (finalFor p.1) else p.2) := by
      simp [execute_final_retry]
    rw [hmap, List.getElem?_enum, hget]
    simp [needsFinalRetry, hpw]

/-- Witness for C2: a stream whose second attempt is a password error
stops the loop at attempt 2, freezes the record with `密码错误` while
keeping the earlier platform success, and the final-retry pass leaves a
password-error record in place. -/
theorem password_error_freeze_witness :
    ((fun n => if n = 0 then
        { initResult 1 0 false with oshwhub_success := true, oshwhub_status := "签到成功" }
      else
        { initResult 1 1 false with password_error := true }) 0).password_error
      = false ∧
    (process_single_account 1
      (fun n => if n = 0 then
        { initResult 1 0 false with oshwhub_success := true, oshwhub_status := "签到成功" }
      else
        { initResult 1 1 false with password_error := true })).1.password_error
      = true ∧
    (process_single_account 1
      (fun n => if n = 0 then
        { initResult 1 0 false with oshwhub_success := true, oshwhub_status := "签到成功" }
      else
        { initResult 1 1 false with password_error := true })).1.oshwhub_status
      = "密码错误" ∧
    needsFinalRetry { initResult 1 0 false with password_error := true } = false ∧
    (execute_final_retry [{ initResult 1 0 false with password_error := true }]
      (fun _ => initResult 1 1 true))[0]? =
      some { initResult 1 0 false with password_error := true } := by
  obtain ⟨h1, h2, h3, h4⟩ := password_error_freeze
  have hu : (process_single_account 1
      (fun n => if n = 0 then
        { initResult 1 0 false with oshwhub_success := true, oshwhub_status := "签到成功" }
      else
        { initResult 1 1 false with password_error := true })).2 = 1 + 1 := by
    decide
  have hres := h2 1 _ 1 hu (by decide)
  exact ⟨h1 1 _ 0 (by rw [hu]; omega), hres.1, hres.2.1,
    h3 _ (by decide), h4 _ _ 0 _ (by decide) (by decide)⟩

/-! ## C7 — CLI exit-code contract -/

theorem allFailed_ne_nil_iff (results : List AttemptResult) :
    (failedAccounts results ++ passwordErrorAccounts results ≠ []) ↔
      ∃ r ∈ results, r.password_error = true ∨ r.oshwhub_success = false ∨
        r.jindou_success = false := by
  constructor
  · intro h
    rcases List.exists_mem_of_ne_nil _ h with ⟨i, hi⟩
    rcases List.mem_append.mp hi with hf | hp
    · rcases List.mem_map.mp hf with ⟨r, hr, -⟩
      rcases List.mem_filter.mp hr with ⟨hrmem, hcond⟩
      obtain ⟨hor, -⟩ := of_decide_eq_true hcond
      refine ⟨r, hrmem, ?_⟩
      rcases hor with h1 | h1
      · exact Or.inr (Or.inl (by simpa using h1))
      · exact Or.inr (Or.inr (by simpa using h1))
    · rcases List.mem_map.mp hp with ⟨r, hr, -⟩
      rcases List.mem_filter.mp hr with ⟨hrmem, hcond⟩
      exact ⟨r, hrmem, Or.inl hcond⟩
  · rintro ⟨r, hr, hcase⟩ hnil
    rcases List.append_eq_nil.mp hnil with ⟨hf, hp⟩
    have hf2 := congrArg List.length hf
    have hp2 := congrArg List.length hp
    simp [failedAccounts, passwordErrorAccounts, List.length_eq_zero,
      List.filter_eq_nil_iff] at hf2 hp2
    rcases hcase with h1 | h1 | h1
    · exact absurd h1 (by simpa using hp2 r hr)
    · have := hf2 r hr (Or.inl (by simp [h1]))
      exact absurd h1 (by simpa [this] using hp2 r hr)
    · have := hf2 r hr (Or.inr (by simp [h1]))
      exact absurd h1 (by simpa [this] using hp2 r hr)

/-- Counterexample for C7 as stated: the third argument `"True"` is not
the string `"true"`, yet it enables the failure-exit flag (the code
lowercases it), so a run with a failed account exits 1 where the claim
says the flag is disabled and the exit code must be 0. -/
theorem cli_exit_counterexample :
    mainExitCode ["jlc.py", "u1", "p1", "True"] [initResult 1 0 false] = 1 ∧
    ("True" = "true") = False := by
  constructor
  · decide
  · simp

/-- C7 (amended): the program exits 1 when fewer than two argument lists
are supplied or the parsed username and password counts differ; the
failure-exit flag is enabled iff a third argument is present and equals
`"true"` after lowercasing (absent, or any value not lowercasing to
`"true"`, disables it); otherwise the process exits 1 iff the flag is
enabled and at least one account remains failed or password-errored,
and exits 0 in every other case. -/
theorem cli_exit_contract :
    (∀ (argv : List String) (results : List AttemptResult),
      argv.length < 3 → mainExitCode argv results = 1) ∧
    (∀ (p a1 a2 : String) (rest : List String) (results : List AttemptResult),
      (parse_list a1).length ≠ (parse_list a2).length →
      mainExitCode (p :: a1 :: a2 :: rest) results = 1) ∧
    (∀ (p a1 a2 a3 : String) (rest : List String),
      (enableFailureExit (p :: a1 :: a2 :: a3 :: rest) = true ↔
        pyLower a3 = "true")) ∧
    (∀ (p a1 a2 : String), enableFailureExit [p, a1, a2] = false) ∧
    (∀ (p a1 a2 : String) (rest : List String) (results : List AttemptResult),
      (parse_list a1).length = (parse_list a2).length →
      (mainExitCode (p :: a1 :: a2 :: rest) results = 1 ↔
        enableFailureExit (p :: a1 :: a2 :: rest) = true ∧
        ∃ r ∈ results, r.password_error = true ∨ r.oshwhub_success = false ∨
          r.jindou_success = false) ∧
      (mainExitCode (p :: a1 :: a2 :: rest) results = 0 ↔
        ¬ (enableFailureExit (p :: a1 :: a2 :: rest) = true ∧
          ∃ r ∈ results, r.password_error = true ∨ r.oshwhub_success = false ∨
            r.jindou_success = false))) := by
  refine ⟨?_, ?_, ?_, ?_, ?_⟩
  · intro argv results hlen
    match argv with
    | [] => rfl
    | [_] => rfl
    | [_, _] => rfl
    | _ :: _ :: _ :: _ => simp at hlen; omega
  · intro p a1 a2 rest results hne
    simp [mainExitCode, hne]
  · intro p a1 a2 a3 rest
    simp [enableFailureExit]
  · intro p a1 a2
    rfl
  · intro p a1 a2 rest results heq
    have hmain : mainExitCode (p :: a1 :: a2 :: rest) results =
        (if enableFailureExit (p :: a1 :: a2 :: rest) = true ∧
            (failedAccounts results ++ passwordErrorAccounts results ≠ []) then 1
         else 0) := by
      simp [mainExitCode, heq]
    rw [hmain]
    constructor
    · constructor
      · intro h1
        by_cases hc : (enableFailureExit (p :: a1 :: a2 :: rest) = true ∧
            (failedAccounts results ++ passwordErrorAccounts results ≠ []))
        · exact ⟨hc.1, (allFailed_ne_nil_iff results).mp hc.2⟩
        · rw [if_neg hc] at h1; omega
      · rintro ⟨he, hex⟩
        rw [if_pos ⟨he, (allFailed_ne_nil_iff results).mpr hex⟩]
    · constructor
      · intro h0 hc
        rw [if_pos ⟨hc.1, (allFailed_ne_nil_iff results).mpr hc.2⟩] at h0
        omega
      · intro hc
        rw [if_neg (fun hcc =>
          hc ⟨hcc.1, (allFailed_ne_nil_iff results).mp hcc.2⟩)]

/-- Witness for C7 at concrete inputs: too few arguments exit 1, a
username/password count mismatch exits 1, flag parsing, and the final
exit in both the enabled-with-failure and disabled cases. -/
theorem cli_exit_contract_witness :
    mainExitCode ["jlc.py", "u1,u2"] [] = 1 ∧
    mainExitCode ["jlc.py", "u1,u2", "p1"] [] = 1 ∧
    (enableFailureExit ["jlc.py", "u", "p", "TRUE"] = true ↔
      pyLower "TRUE" = "true") ∧
    enableFailureExit ["jlc.py", "u", "p"] = false ∧
    mainExitCode ["jlc.py", "u1", "p1", "true"] [initResult 1 0 false] = 1 ∧
    mainExitCode ["jlc.py", "u1", "p1"] [initResult 1 0 false] = 0 := by
  obtain ⟨h1, h2, h3, h4, h5⟩ := cli_exit_contract
  refine ⟨h1 _ [] (by decide), h2 "jlc.py" "u1,u2" "p1" [] [] (by decide),
    h3 "jlc.py" "u" "p" "TRUE" [], h4 "jlc.py" "u" "p", ?_, ?_⟩
  · exact (h5 "jlc.py" "u1" "p1" ["true"] [initResult 1 0 false]
      (by decide)).1.mpr ⟨by decide, initResult 1 0 false, by simp, by decide⟩
  · exact (h5 "jlc.py" "u1" "p1" [] [initResult 1 0 false]
      (by decide)).2.mpr (by rintro ⟨he, -⟩; exact absurd he (by decide))

/-! ## C8 — browser teardown across the restart path -/

/-- C8 (code evaluation at the failing input): when the first navigation
round inside `ensure_login_page` fails and the second succeeds, the
restarted browser (instance 1) is created inside `ensure_login_page`'s
local variable, never escapes to the caller, and is never quit — it
outlives the attempt even though `ensure_login_page` returns success and
the caller's `finally` quits instance 0.  Without a restart no instance
leaks. -/
theorem browser_leak_on_restart :
    leakedDrivers
      (fun i => if i = 0 then NavOutcome.otherPage else NavOutcome.loginPage)
      = [1] ∧
    ([1] : List Nat) ≠ [] ∧
    (ensure_login_page
      (fun i => if i = 0 then NavOutcome.otherPage else NavOutcome.loginPage)
      0).success = true ∧
    leakedDrivers (fun _ => NavOutcome.loginPage) = [] := by
  decide

end JLC
